import Mathlib

/-!
Shallow embedding of the ISP support orchestrator (src/app/main.py) and
proofs of the specified properties.  Machine state (Redis keys) is passed
explicitly; external collaborator responses (MikroWisp, SmartOLT, WhatsApp,
GLM) are supplied as oracle inputs; outbound calls are recorded as an
effect trace.  Numeric dBm readings are modelled as exact decimals
(integer mantissa with a power-of-ten denominator), mirroring the decimal
literals the Python code parses out of telemetry text.  Python identifiers
containing `ñ` are transliterated with plain `n`.
-/

namespace IspAi

/-- Python truthiness of an optional string: `None` and `""` are falsy. -/
def truthyOpt : Option String → Bool
  | none => false
  | some s => s ≠ ""

/-- Python rendering of an optional string inside an f-string:
`None` renders as the literal text "None". -/
def pyStr : Option String → String
  | none => "None"
  | some s => s

/-- Prefix test on character lists. -/
def leadsWith : List Char → List Char → Bool
  | [], _ => true
  | _ :: _, [] => false
  | a :: as, b :: bs => a = b && leadsWith as bs

/-- Membership of `needle` as a contiguous substring of `haystack`
(the Python `in` operator on strings). -/
def listContains (needle : List Char) : List Char → Bool
  | [] => needle.isEmpty
  | c :: rest => leadsWith needle (c :: rest) || listContains needle rest

/-- String version of `listContains`. -/
def substrB (needle haystack : String) : Bool :=
  listContains needle.data haystack.data

/-- Exact decimal number: value is `num / 10 ^ exp`.  Exactly represents
every literal matched by the telemetry regexes. -/
structure Dec where
  num : Int
  exp : Nat
  deriving Repr, DecidableEq

/-- Rational value denoted by a `Dec`. -/
def Dec.toRat (a : Dec) : Rat := (a.num : Rat) / ((10 : Rat) ^ a.exp)

/-- Decidable `≤` on decimals by cross multiplication. -/
def Dec.leB (a b : Dec) : Bool :=
  a.num * (10 : Int) ^ b.exp ≤ b.num * (10 : Int) ^ a.exp

/-- A decimal denotes the value zero iff its mantissa is zero. -/
def Dec.isZero (a : Dec) : Bool := a.num = 0

/-- Whole number as a decimal. -/
def Dec.ofInt (n : Int) : Dec := ⟨n, 0⟩

/-- ASCII lower-casing of one character. -/
def charLower (c : Char) : Char :=
  if decide ('A' ≤ c) && decide (c ≤ 'Z') then Char.ofNat (c.toNat + 32) else c

/-- ASCII upper-casing of one character. -/
def charUpper (c : Char) : Char :=
  if decide ('a' ≤ c) && decide (c ≤ 'z') then Char.ofNat (c.toNat - 32) else c

/-- `str.lower()` restricted to ASCII; every cased literal the code
compares against is ASCII or already lowercase. -/
def toLowerStr (s : String) : String := String.mk (s.data.map charLower)

/-- `str.upper()` restricted to ASCII. -/
def toUpperStr (s : String) : String := String.mk (s.data.map charUpper)

/-- ASCII whitespace, for `str.strip()`. -/
def isSpaceB (c : Char) : Bool := c = ' ' || c = '\t' || c = '\n' || c = '\r'

/-- `str.strip()`. -/
def trimStr (s : String) : String :=
  String.mk (((s.data.dropWhile isSpaceB).reverse.dropWhile isSpaceB).reverse)

/-- `str.startswith(p)` (first argument is the subject string). -/
def startsWithStr (s p : String) : Bool := leadsWith p.data s.data

/-- Fueled engine of `str.replace`: leftmost non-overlapping passes. -/
def replaceListFuel (pat rep : List Char) : Nat → List Char → List Char
  | 0, l => l
  | _ + 1, [] => []
  | fuel + 1, c :: rest =>
    if leadsWith pat (c :: rest) && ¬ pat.isEmpty then
      rep ++ replaceListFuel pat rep fuel ((c :: rest).drop pat.length)
    else c :: replaceListFuel pat rep fuel rest

/-- `s.replace(pat, rep)`. -/
def replaceStr (s pat rep : String) : String :=
  String.mk (replaceListFuel pat.data rep.data s.data.length s.data)

/-- `sep.join(parts)`. -/
def joinWith (sep : String) : List String → String
  | [] => ""
  | [x] => x
  | x :: y :: rest => x ++ sep ++ joinWith sep (y :: rest)

/-- Decimal digit test. -/
def isDigitB (c : Char) : Bool := decide ('0' ≤ c) && decide (c ≤ '9')

/-- Split a leading run of decimal digits off a character list. -/
def takeDigits : List Char → List Char × List Char
  | [] => ([], [])
  | c :: rest =>
    if isDigitB c then
      let p := takeDigits rest
      (c :: p.1, p.2)
    else ([], c :: rest)

/-- Attempt to match the regular expression `-?\d+\.?\d*` at the head of
the list (greedy, as Python `re` matches it). -/
def matchNumAt (s : List Char) : Option (List Char) :=
  match s with
  | '-' :: rest =>
    let p := takeDigits rest
    if p.1.isEmpty then none
    else
      match p.2 with
      | '.' :: r2 => some ('-' :: p.1 ++ '.' :: (takeDigits r2).1)
      | _ => some ('-' :: p.1)
  | other =>
    let p := takeDigits other
    if p.1.isEmpty then none
    else
      match p.2 with
      | '.' :: r2 => some (p.1 ++ '.' :: (takeDigits r2).1)
      | _ => some (p.1)

/-- Leftmost match of `-?\d+\.?\d*` in a character list
(`re.search` semantics). -/
def searchNum : List Char → Option (List Char)
  | [] => none
  | c :: rest =>
    match matchNumAt (c :: rest) with
    | some m => some m
    | none => searchNum rest

/-- Numeric value of a digit list read in base 10. -/
def digitsToNat : List Char → Nat :=
  List.foldl (fun acc c => acc * 10 + (c.toNat - '0'.toNat)) 0

/-- Value of an unsigned decimal literal `\d+(\.\d*)?`. -/
def parseUnsigned (cs : List Char) : Dec :=
  let p := takeDigits cs
  let frac : List Char :=
    match p.2 with
    | '.' :: r2 => (takeDigits r2).1
    | _ => []
  ⟨(digitsToNat p.1 : Int) * (10 : Int) ^ frac.length + (digitsToNat frac : Int),
   frac.length⟩

/-- Value of a matched decimal literal, sign included
(`float(...)` applied to the regex match). -/
def parseNum (cs : List Char) : Dec :=
  match cs with
  | '-' :: rest =>
    let u := parseUnsigned rest
    ⟨-u.num, u.exp⟩
  | other => parseUnsigned other

/-- The `onu_signal` payload returned by SmartOLT, after the Python
`str(...)` conversion of its fields. -/
structure SenalData where
  onu_signal_1490 : Option String := none
  onu_signal_value : Option String := none
  deriving Repr, DecidableEq

/-- The raw-field selection of `extraer_señal_rx` (main.py:851):
`señal_data.get("onu_signal_1490") or señal_data.get("onu_signal_value", "")`. -/
def senalRaw (d : SenalData) : String :=
  match d.onu_signal_1490 with
  | some s => if s = "" then (d.onu_signal_value.getD "") else s
  | none => d.onu_signal_value.getD ""

/-- `extraer_señal_rx` (main.py:847): picks the raw field
(`onu_signal_1490`, falling back on falsy to `onu_signal_value` with
default ""), extracts the first decimal literal, converts it to a number,
and maps an exact 0.0 to `None`.  The whole-dict `None`/empty case also
yields `None`. -/
def extraer_senal_rx (senal_data : Option SenalData) : Option Dec :=
  match senal_data with
  | none => none
  | some d =>
    match searchNum (senalRaw d).data with
    | none => none
    | some m =>
      let val := parseNum m
      if ¬ val.isZero then some val else none

/-- `ISP_CONFIG["señal_minima_dbm"]` (prompts.py:363). -/
def SENAL_MIN : Dec := ⟨-27, 0⟩

/-- `ISP_CONFIG["señal_maxima_dbm"]` (prompts.py:364). -/
def SENAL_MAX : Dec := ⟨-8, 0⟩

/-- The degradation predicate of main.py:1032:
`señal_rx is not None and not (SEÑAL_MAX >= señal_rx >= SEÑAL_MIN)`. -/
def senal_degradada (senal_rx : Option Dec) : Bool :=
  match senal_rx with
  | none => false
  | some x => !(Dec.leB x SENAL_MAX && Dec.leB SENAL_MIN x)

/-- The in-window predicate of main.py:1481:
`señal_val is not None and (SEÑAL_MAX >= señal_val >= SEÑAL_MIN)`. -/
def senal_ok (senal_val : Option Dec) : Bool :=
  match senal_val with
  | none => false
  | some x => Dec.leB x SENAL_MAX && Dec.leB SENAL_MIN x

/-- Decidable `<` on decimals by cross multiplication. -/
def Dec.ltB (a b : Dec) : Bool :=
  a.num * (10 : Int) ^ b.exp < b.num * (10 : Int) ^ a.exp

/-- `x or default` for an optional string operand (Python `or`). -/
def pyOr (x : Option String) (default : String) : String :=
  if truthyOpt x then x.getD "" else default

/-- Rendering of an optional numeric reading inside an f-string.  The
exact Python float formatting is not reproduced; no property inspects
these digits, only the branching around them. -/
def decStr : Option Dec → String
  | none => "None"
  | some d => toString d.num ++ "e-" ++ toString d.exp

/-- `SessionState` (main.py:109), the customer conversation state.  The
two wall-clock audit fields `created_at`/`updated_at` are omitted: they
are write-only timestamps no handler branches on. -/
structure SessionState where
  phone : String
  fase : String := "IDENTIFICACION"
  contrato : Option String := none
  id_cliente : Option String := none
  nombre : Option String := none
  plan : Option String := none
  serial_ont : Option String := none
  ip_cliente : Option String := none
  ticket_id : Option String := none
  kpi_activo : Option String := none
  datos_tecnicos : Option String := none
  destino_escalado : String := "TECNICO"
  pasos_realizados : List String := []
  reboot_ejecutado : Bool := false
  historial : List (String × String) := []
  deriving Repr, DecidableEq

/-- Externally visible calls recorded by the embedding, in program
order.  `spawnRebootTask` stands for `bg.add_task(ejecutar_reboot_y_verificar, …)`;
`rebootCmd` for `so_reboot_ont`; `notifFallback` for
`wa_send_message_tecnico_con_fallback`; `crearTecnicoSession` for the
technician-session write inside `notificar_ticket_a_tecnico`. -/
inductive Effect where
  | waSend (dest text : String)
  | waSendButtons (dest body : String)
  | waSendList (dest header body : String)
  | waSendTecnico (dest text : String)
  | waSendButtonsTecnico (dest body : String)
  | spawnRebootTask (phone serial : String)
  | rebootCmd (serial : String)
  | crearTicket (cliente_id : Option String) (descripcion : String)
  | cerrarTicket (ticket motivo : String)
  | guardarPendiente (tecnico mensaje : String)
  | notifFallback (dest mensaje : String)
  | crearTecnicoSession (tecnico ticket : String)
  | adminCmd (texto : String)
  deriving Repr, DecidableEq

/-- One MikroWisp service entry.  `sn` is the result of the
`s:2:"sn";s:\d+:"([^"]+)"` search on the PHP-serialised `smartolt`
field: the collaborator payload is supplied already matched, as the
regex group is a plain capture of external data. -/
structure Servicio where
  tiposervicio : Option String := none
  perfil : Option String := none
  status_user : Option String := none
  sn : Option String := none
  ip : Option String := none
  deriving Repr, DecidableEq

/-- A MikroWisp customer record (the fields `procesar_mensaje` reads). -/
structure Cliente where
  id : Option String := none
  nombre : Option String := none
  estado : Option String := none
  servicios : List Servicio := []
  deriving Repr, DecidableEq

/-- A SmartOLT status response (the field the orchestrator reads). -/
structure OntStatusResp where
  onu_status : Option String := none
  deriving Repr, DecidableEq

/-- Output of `parsear_full_status` (main.py:539): the full-status text
fields, each defaulted to the sentinel when the pattern is absent. -/
structure ParsedStatus where
  rx_power : String := "N/D"
  tx_power : String := "N/D"
  olt_rx_power : String := "N/D"
  temperatura : String := "N/D"
  run_state : String := "N/D"
  last_down_cause : String := "N/D"
  last_up_time : String := "N/D"
  last_down_time : String := "N/D"
  online_duration : String := "N/D"
  wan_status : String := "N/D"
  ipv4_address : String := "N/D"
  wan_type : String := "N/D"
  historial_caidas : String := "Sin caídas recientes"
  deriving Repr, DecidableEq

/-- Collaborator responses consumed during one pass of the orchestrator.
`glm_reply = none` models a failed language-generation call. -/
structure Oracle where
  glm_reply : Option String := some "ok"
  cliente : Option Cliente := none
  facturas_total : Dec := ⟨0, 0⟩
  ont_status : Option OntStatusResp := none
  senal_data : Option SenalData := none
  ont_status2 : Option OntStatusResp := none
  full_status : Option ParsedStatus := none
  ping_res : String := "No se pudo ejecutar el ping"
  ticket_result : Option String := none
  reboot_ok : Bool := true
  ont_post : Option OntStatusResp := none
  senal_post : Option SenalData := none
  deriving Repr, DecidableEq

/-- Process environment: the technician and NOC notification numbers. -/
structure Env where
  tecnico_whatsapp : Option String := none
  noc_whatsapp : Option String := none
  deriving Repr, DecidableEq

/-- `call_glm` (main.py:217): the reply, or the fixed apology on failure;
on success with a truthy raw message the exchange is appended to the
session transcript. -/
def call_glm (reply : Option String) (session : SessionState) (raw : String) :
    String × SessionState :=
  match reply with
  | some r =>
    if raw ≠ "" then
      (r, { session with historial := session.historial ++ [("user", raw), ("assistant", r)] })
    else (r, session)
  | none => ("Disculpa, tuve un problema al procesar tu solicitud.", session)

/-- Word character, for the `\b` boundaries of `extraer_contrato`. -/
def isWordChar (c : Char) : Bool := c.isAlphanum || c = '_'

/-- Maximal word-character runs of a character list (accumulator form). -/
def wordRunsAux : List Char → List Char → List (List Char)
  | [], acc => if acc.isEmpty then [] else [acc.reverse]
  | c :: rest, acc =>
    if isWordChar c then wordRunsAux rest (c :: acc)
    else if acc.isEmpty then wordRunsAux rest []
    else acc.reverse :: wordRunsAux rest []

/-- Maximal word-character runs of a character list. -/
def wordRuns (cs : List Char) : List (List Char) := wordRunsAux cs []

/-- `extraer_contrato` (main.py:863): the first `\b\d{6,12}\b` match,
i.e. the first maximal word-character run made only of digits whose
length is between 6 and 12. -/
def extraer_contrato (texto : String) : Option String :=
  match (wordRuns texto.data).find?
      (fun r => r.all isDigitB && decide (6 ≤ r.length) && decide (r.length ≤ 12)) with
  | some r => some (String.mk r)
  | none => none

/-- `extraer_horario` (main.py:870). -/
def extraer_horario (texto : String) : String :=
  let t := toLowerStr texto
  if ["mañana", "manana", "am", "8", "9", "10", "11"].any (fun p => substrB p t) then "MAÑANA"
  else if ["tarde", "pm", "1", "2", "3", "4", "5"].any (fun p => substrB p t) then "TARDE"
  else "MAÑANA"

/-- The KPI label table of `formatear_datos_tecnicos` (main.py:571). -/
def kpi_labels_formato : List (String × String) :=
  [("kpi_no_internet", "Sin acceso a internet"),
   ("kpi_lento_todo", "Internet lento en todos los dispositivos"),
   ("kpi_wifi_lento", "WiFi lento"),
   ("kpi_lag", "Lag en juegos online"),
   ("kpi_intermitente", "Conexión intermitente / se corta"),
   ("kpi_dns", "No carga páginas web"),
   ("kpi_wifi_no_aparece", "Red WiFi no aparece")]

/-- `formatear_datos_tecnicos` (main.py:569). -/
def formatear_datos_tecnicos (parsed : ParsedStatus) (ip_cliente : String)
    (ping_resultado : String) (kpi : String) : String :=
  let problema := (kpi_labels_formato.lookup kpi).getD kpi
  "DIAGNOSTICO TECNICO AUTOMATICO - ARIA\n" ++ String.mk (List.replicate 40 '=') ++ "\n" ++
  "Problema reportado: " ++ problema ++ "\n\n" ++
  "SENAL OPTICA\n" ++
  "  Rx ONT (dBm):     " ++ parsed.rx_power ++ "\n" ++
  "  Tx ONT (dBm):     " ++ parsed.tx_power ++ "\n" ++
  "  Rx OLT (dBm):     " ++ parsed.olt_rx_power ++ "\n" ++
  "  Temperatura:      " ++ parsed.temperatura ++ " C\n\n" ++
  "ESTADO WAN\n" ++
  "  Conexion:         " ++ parsed.wan_status ++ "\n" ++
  "  Tipo:             " ++ parsed.wan_type ++ "\n" ++
  "  IP cliente:       " ++ parsed.ipv4_address ++ " / " ++ ip_cliente ++ "\n\n" ++
  "HISTORIAL ONT\n" ++
  "  Estado actual:    " ++ parsed.run_state ++ "\n" ++
  "  Ultima caida:     " ++ parsed.last_down_time ++ "\n" ++
  "  Causa:            " ++ parsed.last_down_cause ++ "\n" ++
  "  Ultima subida:    " ++ parsed.last_up_time ++ "\n" ++
  "  Tiempo online:    " ++ parsed.online_duration ++ "\n\n" ++
  "ULTIMAS CAIDAS\n" ++ parsed.historial_caidas ++ "\n\n" ++
  "PING AL CLIENTE (" ++ ip_cliente ++ ")\n  " ++ ping_resultado ++ "\n"

/-- The Redis customer-session keyspace, restricted to a single phone. -/
abbrev Store := Option SessionState

/-- `get_session` (main.py:177): the stored session, or a freshly created
and immediately saved one. -/
def get_session (phone : String) (store : Store) : SessionState × Store :=
  match store with
  | some s => (s, some s)
  | none =>
    let s : SessionState := { phone := phone }
    (s, some s)

/-- Result of one synchronous pass of `procesar_mensaje`: updated store,
emitted effects, and whether the handler re-invoked itself with the same
inbound message. -/
structure PasoResult where
  store : Store
  effects : List Effect
  recursa : Bool
  deriving Repr, DecidableEq

/-- The IDENTIFICACION branch of `procesar_mensaje` (main.py:915). -/
def fase_identificacion (o : Oracle) (phone mensaje : String)
    (session : SessionState) (store : Store) : PasoResult :=
  if session.historial.isEmpty then
    let g := call_glm o.glm_reply session mensaje
    { store := some g.2, effects := [.waSend phone g.1], recursa := false }
  else
    match extraer_contrato mensaje with
    | none =>
      { store := store,
        effects := [.waSend phone "No pude identificar tu número de contrato. ¿Podrías escribirlo nuevamente? (solo números)"],
        recursa := false }
    | some contrato =>
      match o.cliente with
      | none =>
        { store := store,
          effects := [.waSend phone ("No encontré ningún contrato con el número *" ++ contrato ++ "*. Verifica el número o escribe tu cédula.")],
          recursa := false }
      | some cliente =>
        let session := { session with
          contrato := some contrato,
          id_cliente := some (pyStr cliente.id),
          nombre := cliente.nombre }
        let lineas := cliente.servicios.map (fun serv =>
          let tipo := serv.tiposervicio.getD "General"
          let nombre_plan := serv.perfil.getD "Sin Plan"
          let estado := serv.status_user.getD "Desconocido"
          let sn_texto := match serv.sn with
            | some sn => " [SN: " ++ sn ++ "]"
            | none => ""
          "- " ++ tipo ++ ": " ++ nombre_plan ++ " (Estado: " ++ estado ++ ")" ++ sn_texto)
        let serial_principal := (cliente.servicios.filterMap (fun s => s.sn)).head?
        let session := { session with
          plan := some (if lineas.isEmpty then "N/A" else joinWith "\n" lineas),
          serial_ont := serial_principal,
          ip_cliente := match cliente.servicios with
            | [] => session.ip_cliente
            | s0 :: _ => s0.ip }
        let saldo := o.facturas_total
        let estado_cuenta :=
          if Dec.ltB ⟨0, 0⟩ saldo && cliente.estado == some "suspendido"
          then "CORTADO_MORA" else "ACTIVO"
        let g := call_glm o.glm_reply session mensaje
        let session := { g.2 with
          fase := if estado_cuenta = "CORTADO_MORA" then "FINALIZADO_MORA" else "DIAGNOSTICO_RED" }
        { store := some session, effects := [.waSend phone g.1], recursa := false }

/-- The ONT status string computed in DIAGNOSTICO_RED (main.py:1012-1022):
telemetry is fetched only when a serial is present; a missing response
reads "desconocido"; a present response defaults its field to "Offline"
and is lower-cased. -/
def diagOnuStatus (o : Oracle) (session : SessionState) : String :=
  match (if truthyOpt session.serial_ont then o.ont_status else none) with
  | some resp => toLowerStr (resp.onu_status.getD "Offline")
  | none => "desconocido"

/-- The extracted Rx reading computed in DIAGNOSTICO_RED
(main.py:1024-1026). -/
def diagSenalRx (o : Oracle) (session : SessionState) : Option Dec :=
  match (if truthyOpt session.serial_ont then o.senal_data else none) with
  | some d => extraer_senal_rx (some d)
  | none => none

/-- The DIAGNOSTICO_RED branch of `procesar_mensaje` (main.py:1010). -/
def fase_diagnostico_red (o : Oracle) (phone : String)
    (session : SessionState) : PasoResult :=
  let onu_status_str := diagOnuStatus o session
  let senal_rx : Option Dec := diagSenalRx o session
  let degradada := senal_degradada senal_rx
  if onu_status_str = "offline" || onu_status_str = "power fail" || onu_status_str = "los" then
    let session := { session with
      fase := "TROUBLESHOOTING_MANUAL",
      pasos_realizados := ["ont_estado:" ++ onu_status_str] }
    { store := some session,
      effects := [.waSend phone ("He detectado que tu equipo no tiene comunicación con nuestra red (Estado: *" ++ toUpperStr onu_status_str ++ "*).\n\nVamos a intentar resolverlo juntos. Por favor revisa lo siguiente:\n\n1️⃣ ¿Las luces de tu equipo están encendidas?\n2️⃣ ¿El cable de fibra (amarillo o verde) está bien conectado?\n3️⃣ ¿Hubo algún corte de luz recientemente?\n\nResponde *Sí* si todo parece normal, o *No* si hay algo raro.")],
      recursa := false }
  else if onu_status_str = "online" && degradada && truthyOpt session.serial_ont then
    let serial := session.serial_ont.getD ""
    let session := { session with
      fase := "REBOOT_PENDIENTE",
      pasos_realizados := ["senal_degradada"] }
    { store := some session,
      effects := [.spawnRebootTask phone serial,
                  .waSend phone ("He detectado que tu equipo está conectado pero con señal óptica degradada (*" ++ decStr senal_rx ++ " dBm*). Esto puede causar lentitud o cortes.\n\n⚙️ Voy a reiniciar tu equipo remotamente para intentar estabilizarlo. Por favor espera *2 minutos* sin tocar el router.")],
      recursa := false }
  else
    let session := { session with
      fase := "TROUBLESHOOTING",
      pasos_realizados := ["menu_desplegado"] }
    { store := some session,
      effects := [.waSendList phone "Diagnóstico de Fallas" "He revisado tu equipo y está conectado correctamente a nuestra red. Selecciona el problema que estás experimentando:"],
      recursa := false }

/-- The TROUBLESHOOTING_MANUAL branch of `procesar_mensaje`
(main.py:1111). -/
def fase_troubleshooting_manual (o : Oracle) (phone mensaje : String)
    (session : SessionState) : PasoResult :=
  let respuesta := trimStr (toLowerStr mensaje)
  if ["sí", "si", "yes", "normal", "bien", "todo bien"].any (fun p => substrB p respuesta) then
    let session := { session with
      kpi_activo := some "ont_offline_sin_causa_aparente",
      destino_escalado := "TECNICO",
      datos_tecnicos := some ("ONT reportada OFFLINE por el sistema.\n" ++
        "Estado cliente al consultar: " ++ joinWith ", " session.pasos_realizados ++ "\n" ++
        "Cliente confirmó que luces y cables parecen normales.\n" ++
        "Serial ONT: " ++ pyStr session.serial_ont ++ "\n" ++
        "IP cliente: " ++ pyStr session.ip_cliente),
      fase := "ESCALADO" }
    { store := some session, effects := [], recursa := true }
  else
    let ont_post := if truthyOpt session.serial_ont then o.ont_status2 else none
    let estado_post :=
      match ont_post with
      | some r => r.onu_status.getD "Offline"
      | none => "Offline"
    if toLowerStr estado_post = "online" then
      let session := { session with fase := "CSAT" }
      { store := some session,
        effects := [.waSend phone "¡Buenas noticias! Tu equipo acaba de volver a conectarse a nuestra red. Por favor prueba tu internet. ¿Se resolvió el problema?"],
        recursa := false }
    else
      let session := { session with
        kpi_activo := some "ont_offline_confirmado",
        destino_escalado := "TECNICO",
        datos_tecnicos := some ("ONT OFFLINE confirmado.\n" ++
          "Cliente reportó anomalías en luces/cables.\n" ++
          "Serial ONT: " ++ pyStr session.serial_ont ++ "\n" ++
          "IP cliente: " ++ pyStr session.ip_cliente),
        fase := "ESCALADO" }
      { store := some session, effects := [], recursa := true }

/-- The TROUBLESHOOTING branch of `procesar_mensaje` (main.py:1157). -/
def fase_troubleshooting (o : Oracle) (phone mensaje : String)
    (session : SessionState) (store : Store) : PasoResult :=
  if ¬ startsWithStr mensaje "kpi_" then
    { store := store,
      effects := [.waSend phone "Por favor selecciona una opción de la lista para que pueda registrar tu falla correctamente. 🙏"],
      recursa := false }
  else
    let session := { session with
      pasos_realizados := session.pasos_realizados ++ [mensaje],
      kpi_activo := some mensaje }
    if mensaje = "kpi_lento_todo" || mensaje = "kpi_wifi_lento" || mensaje = "kpi_lag" then
      let session := { session with destino_escalado := "TECNICO" }
      if truthyOpt session.serial_ont then
        let serial := session.serial_ont.getD ""
        let session := { session with fase := "REBOOT_PENDIENTE" }
        { store := some session,
          effects := [.waSend phone "Para mejorar tu velocidad voy a reiniciar tu equipo remotamente. 🔄\n\nEs normal hacerlo *1-2 veces por semana* para limpiar la memoria del equipo y mantener la conexión estable, igual que reiniciar un celular.\n\n⚙️ Ejecutando reinicio... Por favor espera *2 minutos* sin tocar el router.",
                      .spawnRebootTask phone serial],
          recursa := false }
      else
        let session := { session with
          fase := "ESCALADO",
          datos_tecnicos := some ("KPI: " ++ mensaje ++ ". Sin serial ONT disponible.") }
        { store := some session, effects := [], recursa := true }
    else if mensaje = "kpi_no_internet" then
      let session := { session with destino_escalado := "TECNICO" }
      let ont_status := if truthyOpt session.serial_ont then o.ont_status2 else none
      let onu_status_str :=
        match ont_status with
        | some r => r.onu_status.getD "Offline"
        | none => "Offline"
      if toLowerStr onu_status_str = "power fail" || toLowerStr onu_status_str = "los" ||
          toLowerStr onu_status_str = "offline" then
        let session := { session with
          fase := "ESCALADO",
          datos_tecnicos := some ("KPI: Sin internet.\n" ++
            "Estado ONT al verificar: " ++ onu_status_str ++ "\n" ++
            "Serial ONT: " ++ pyStr session.serial_ont ++ "\n" ++
            "IP cliente: " ++ pyStr session.ip_cliente) }
        { store := some session, effects := [], recursa := true }
      else
        let session := { session with
          fase := "ESPERANDO_PREGUNTAS_NOINET",
          pasos_realizados := session.pasos_realizados ++ ["ont_status_al_kpi:" ++ onu_status_str] }
        { store := some session,
          effects := [.waSendButtons phone "Tu equipo aparece conectado a nuestra red pero sin internet. Para ayudarte mejor: ¿Qué luces ves en tu equipo ahora mismo?"],
          recursa := false }
    else if mensaje = "kpi_intermitente" then
      let session := { session with destino_escalado := "TECNICO" }
      let raw := if truthyOpt session.serial_ont then o.full_status else none
      let ping_res := if truthyOpt session.ip_cliente then o.ping_res else "IP no disponible"
      let datos :=
        match raw with
        | some parsed => formatear_datos_tecnicos parsed (pyOr session.ip_cliente "N/D") ping_res mensaje
        | none => "KPI: " ++ mensaje ++ ".\nPing: " ++ ping_res ++ "\nSerial: " ++ pyStr session.serial_ont
      let session := { session with fase := "ESCALADO", datos_tecnicos := some datos }
      { store := some session,
        effects := [.waSend phone "Entendido. Voy a revisar los registros técnicos de tu equipo y hacer pruebas de conectividad. Esto puede tomar unos segundos... ⏳"],
        recursa := true }
    else if mensaje = "kpi_dns" then
      let session := { session with destino_escalado := "NOC" }
      let raw := if truthyOpt session.serial_ont then o.full_status else none
      let ping_res := if truthyOpt session.ip_cliente then o.ping_res else "IP no disponible"
      let datos :=
        match raw with
        | some parsed => formatear_datos_tecnicos parsed (pyOr session.ip_cliente "N/D") ping_res mensaje
        | none => "KPI: " ++ mensaje ++ ".\nPing: " ++ ping_res ++ "\nSerial: " ++ pyStr session.serial_ont
      let session := { session with fase := "ESCALADO", datos_tecnicos := some datos }
      { store := some session,
        effects := [.waSend phone "Entendido. Voy a revisar el estado de tu conexión WAN y hacer pruebas de red. Un momento... ⏳"],
        recursa := true }
    else if mensaje = "kpi_wifi_no_aparece" then
      let session := { session with
        destino_escalado := "NOC",
        datos_tecnicos := some ("KPI: Red WiFi no aparece en dispositivos del cliente.\n" ++
          "Serial ONT: " ++ pyStr session.serial_ont ++ "\n" ++
          "IP cliente: " ++ pyStr session.ip_cliente ++ "\n" ++
          "Requiere revisión remota de configuración WiFi por NOC."),
        fase := "ESCALADO" }
      { store := some session, effects := [], recursa := true }
    else
      { store := store, effects := [], recursa := false }

/-- The ESPERANDO_PREGUNTAS_NOINET branch of `procesar_mensaje`
(main.py:1283). -/
def fase_preguntas_noinet (phone mensaje : String)
    (session : SessionState) : PasoResult :=
  let session := { session with
    pasos_realizados := session.pasos_realizados ++ ["luces:" ++ mensaje] }
  if startsWithStr mensaje "luces_" then
    { store := some session,
      effects := [.waSendButtons phone "Gracias. Segunda pregunta: ¿Hubo algún corte de luz eléctrica antes de que se fuera el internet?"],
      recursa := false }
  else
    let luces := (session.pasos_realizados.find? (fun p => startsWithStr p "luces:")).getD "luces:desconocido"
    let corte := if mensaje = "corte_si" then "Sí" else "No"
    let session := { session with
      datos_tecnicos := some ("KPI: Sin acceso a internet (ONT aparece online).\n" ++
        "Luces del equipo: " ++ (replaceStr luces "luces:" "") ++ "\n" ++
        "Corte de luz previo: " ++ corte ++ "\n" ++
        "Serial ONT: " ++ pyStr session.serial_ont ++ "\n" ++
        "IP cliente: " ++ pyStr session.ip_cliente),
      destino_escalado := "TECNICO",
      fase := "ESCALADO" }
    { store := some session, effects := [], recursa := true }

/-- The KPI label table of the ESCALADO handler (main.py:1320). -/
def kpi_labels_escalado : List (String × String) :=
  kpi_labels_formato ++
  [("ont_offline_sin_causa_aparente", "ONT offline sin causa aparente"),
   ("ont_offline_confirmado", "ONT offline confirmado por cliente")]

/-- The ESCALADO branch of `procesar_mensaje` (main.py:1318): builds the
ticket body, creates the ticket, answers the customer, notifies the
destination, and advances to ESPERANDO_TECNICO. -/
def fase_escalado (env : Env) (o : Oracle) (phone mensaje : String)
    (session : SessionState) : PasoResult :=
  let problema_texto := (kpi_labels_escalado.lookup (session.kpi_activo.getD "")).getD "Falla de conectividad"
  let _horario := extraer_horario mensaje
  let destino := if session.destino_escalado = "" then "TECNICO" else session.destino_escalado
  let reboot_texto := if session.reboot_ejecutado then "Sí, sin éxito" else "No fue necesario"
  let contenido_ticket :=
    "Reporte generado por ARIA (Soporte IA)\n" ++ String.mk (List.replicate 40 '=') ++ "\n" ++
    "Problema reportado: " ++ problema_texto ++ "\n" ++
    "Serial ONT: " ++ pyOr session.serial_ont "No disponible" ++ "\n" ++
    "IP cliente: " ++ pyOr session.ip_cliente "No disponible" ++ "\n" ++
    "Reinicio remoto: " ++ reboot_texto ++ "\n" ++
    "Atendido via: WhatsApp\n" ++
    "Telefono: " ++ phone ++ "\n\n" ++
    (if truthyOpt session.datos_tecnicos then session.datos_tecnicos.getD "" else "")
  let ticket_id := o.ticket_result
  let session := { session with ticket_id := ticket_id }
  let numero_destino := if destino = "NOC" then env.noc_whatsapp else env.tecnico_whatsapp
  let msg_cliente :=
    "He registrado tu caso con el ticket *#" ++ pyStr ticket_id ++ "*. 📋\n\n" ++
    "Un " ++ (if destino = "TECNICO" then "técnico" else "especialista") ++
    " revisará tu caso y se pondrá en contacto contigo a la brevedad.\n\n" ++
    "Si tienes alguna consulta adicional puedes escribirnos aquí. 🙏"
  let notif : List Effect :=
    if truthyOpt ticket_id && truthyOpt numero_destino then
      let num := numero_destino.getD ""
      let tid := ticket_id.getD ""
      if destino = "TECNICO" then
        let brief :=
          "🔔 *NUEVO TICKET #" ++ tid ++ "*\n" ++ String.mk (List.replicate 30 '─') ++ "\n" ++
          "👤 Cliente: " ++ pyOr session.nombre "Cliente" ++ "\n" ++
          "📍 Dirección: " ++ pyOr session.contrato "Ver MikroWisp" ++ "\n" ++
          "📱 Teléfono: " ++ phone ++ "\n" ++
          "🔌 Serial ONT: " ++ pyOr session.serial_ont "N/D" ++ "\n" ++
          "🌐 IP: " ++ pyOr session.ip_cliente "N/D" ++ "\n" ++
          "⚠️ Problema: " ++ problema_texto ++ "\n" ++
          (if truthyOpt session.datos_tecnicos then
            "\n📊 *Diagnóstico:*\n" ++ session.datos_tecnicos.getD "" else "")
        [.crearTecnicoSession num tid,
         .notifFallback num brief,
         .waSendButtonsTecnico num "¿Puedes atender este ticket?"]
      else
        let msg_noc :=
          "🔔 *NUEVO TICKET #" ++ tid ++ " → NOC*\n" ++ String.mk (List.replicate 30 '─') ++ "\n" ++
          "👤 Cliente: " ++ pyStr session.nombre ++ "\n" ++
          "📱 Teléfono: " ++ phone ++ "\n" ++
          "🔌 Serial ONT: " ++ pyOr session.serial_ont "N/D" ++ "\n" ++
          "🌐 IP: " ++ pyOr session.ip_cliente "N/D" ++ "\n" ++
          "⚠️ Problema: " ++ problema_texto ++ "\n" ++
          (if truthyOpt session.datos_tecnicos then
            "\n📊 *Diagnóstico:*\n" ++ session.datos_tecnicos.getD "" else "")
        [.notifFallback num msg_noc]
    else []
  let session := { session with fase := "ESPERANDO_TECNICO" }
  { store := some session,
    effects := [.crearTicket session.id_cliente contenido_ticket, .waSend phone msg_cliente] ++ notif,
    recursa := false }

/-- Star count of a CSAT score string "1".."5". -/
def csatNum (s : String) : Nat :=
  if s = "1" then 1 else if s = "2" then 2 else if s = "3" then 3
  else if s = "4" then 4 else 5

/-- The CSAT branch of `procesar_mensaje` (main.py:1405). -/
def fase_csat (o : Oracle) (phone mensaje : String)
    (session : SessionState) : PasoResult :=
  if ["1", "2", "3", "4", "5"].contains (trimStr mensaje) then
    let calificacion := trimStr mensaje
    let cierre : List Effect :=
      if truthyOpt session.ticket_id then
        [.cerrarTicket (session.ticket_id.getD "") ("Resuelto. CSAT: " ++ calificacion ++ "/5")]
      else []
    { store := none,
      effects := cierre ++ [.waSend phone ("¡Gracias por tu calificación! " ++
        String.mk (List.replicate (csatNum calificacion) '⭐') ++
        "\n\nTu opinión nos ayuda a mejorar. ¡Hasta pronto! 👋")],
      recursa := false }
  else
    let g := call_glm o.glm_reply session mensaje
    { store := some g.2, effects := [.waSendButtons phone g.1], recursa := false }

/-- The ESPERANDO_TECNICO branch of `procesar_mensaje` (main.py:1433):
a holding reply, no state change (the session is not saved). -/
def fase_esperando_tecnico (o : Oracle) (phone mensaje : String)
    (session : SessionState) (store : Store) : PasoResult :=
  let g := call_glm o.glm_reply session mensaje
  { store := store, effects := [.waSend phone g.1], recursa := false }

/-- The fall-through branch of `procesar_mensaje` (main.py:1446). -/
def fase_default (phone : String) (store : Store) : PasoResult :=
  { store := store,
    effects := [.waSend phone "Tu caso está siendo atendido. Si tienes alguna consulta adicional, escríbenos. 🙏"],
    recursa := false }

/-- One synchronous pass of `procesar_mensaje` (main.py:906): session
lookup plus phase dispatch.  `recursa := true` stands for the re-entrant
`await procesar_mensaje(phone, mensaje, bg)` self-calls. -/
def procesar_paso (env : Env) (o : Oracle) (phone mensaje : String) (store : Store) :
    PasoResult :=
  let g := get_session phone store
  let session := g.1
  let store := g.2
  if session.fase = "IDENTIFICACION" then fase_identificacion o phone mensaje session store
  else if session.fase = "DIAGNOSTICO_RED" then fase_diagnostico_red o phone session
  else if session.fase = "TROUBLESHOOTING_MANUAL" then fase_troubleshooting_manual o phone mensaje session
  else if session.fase = "TROUBLESHOOTING" then fase_troubleshooting o phone mensaje session store
  else if session.fase = "ESPERANDO_PREGUNTAS_NOINET" then fase_preguntas_noinet phone mensaje session
  else if session.fase = "ESCALADO" then fase_escalado env o phone mensaje session
  else if session.fase = "CSAT" then fase_csat o phone mensaje session
  else if session.fase = "ESPERANDO_TECNICO" then fase_esperando_tecnico o phone mensaje session store
  else fase_default phone store

/-- The re-entrant driver: applies `procesar_paso` and follows the
self-invocation flag, with explicit fuel. -/
def procesar_mensaje : Nat → Env → Oracle → String → String → Store → Store × List Effect
  | 0, _, _, _, _, store => (store, [])
  | fuel + 1, env, o, phone, mensaje, store =>
    let r := procesar_paso env o phone mensaje store
    if r.recursa then
      let r2 := procesar_mensaje fuel env o phone mensaje r.store
      (r2.1, r.effects ++ r2.2)
    else (r.store, r.effects)

/-- Post-reboot KPI label table (main.py:1502). -/
def kpi_labels_post_reboot : List (String × String) :=
  [("kpi_lento_todo", "Internet lento"),
   ("kpi_wifi_lento", "WiFi lento"),
   ("kpi_lag", "Lag en juegos"),
   ("senal_degradada", "Señal óptica degradada")]

/-- The post-reboot status string (main.py:1475): a missing response
reads "offline"; a present one defaults its field to "Offline" and is
lower-cased. -/
def postEstado (o : Oracle) : String :=
  match o.ont_post with
  | some r => toLowerStr (r.onu_status.getD "Offline")
  | none => "offline"

/-- The post-reboot extracted reading (main.py:1476). -/
def postSenal (o : Oracle) : Option Dec :=
  match o.senal_post with
  | some d => extraer_senal_rx (some d)
  | none => none

/-- `ejecutar_reboot_y_verificar` (main.py:1454), the background
verification task: issues the remote reboot; on rejection reverts to
TROUBLESHOOTING and asks for a manual reboot; on acceptance waits, then
re-samples telemetry and either advances to CSAT or escalates with a
ticket and a technician notification through the fallback sender. -/
def ejecutar_reboot_y_verificar (env : Env) (o : Oracle) (phone serial : String)
    (session : SessionState) : Store × List Effect :=
  let exito := o.reboot_ok
  let session := { session with reboot_ejecutado := true }
  if ¬ exito then
    (some { session with fase := "TROUBLESHOOTING" },
     [.rebootCmd serial,
      .waSend phone "No pude ejecutar el reinicio remoto en este momento. Por favor intenta apagar y encender tu equipo manualmente, espera 2 minutos y escríbenos si el problema persiste."])
  else
    let estado_post := postEstado o
    let senal_val := postSenal o
    if estado_post = "online" && senal_ok senal_val then
      (some { session with fase := "CSAT" },
       [.rebootCmd serial,
        .waSend phone "⚙️ Reiniciando tu equipo remotamente... Por favor espera 2 minutos sin tocar el router.",
        .waSend phone ("✅ ¡Tu equipo se reinició correctamente y la señal está estable (" ++ decStr senal_val ++ " dBm)!\n\nPor favor prueba tu internet. ¿Se resolvió el problema?")])
    else
      let datos :=
        "Reboot remoto ejecutado.\n" ++
        "Estado post-reboot: " ++ estado_post ++ "\n" ++
        "Señal post-reboot: " ++ (if senal_val.isSome then decStr senal_val else "N/D") ++ " dBm\n" ++
        "KPI original: " ++ pyOr session.kpi_activo "velocidad/sin_internet"
      let session := { session with
        fase := "ESPERANDO_TECNICO",
        destino_escalado := "TECNICO",
        datos_tecnicos := some datos }
      let problema_texto :=
        (kpi_labels_post_reboot.lookup (session.kpi_activo.getD "")).getD "Falla de conectividad post-reboot"
      let ticket_id := o.ticket_result
      let session := { session with ticket_id := ticket_id }
      let msg_cliente :=
        "El reinicio se ejecutó pero tu equipo no logró estabilizarse. " ++
        "He registrado tu caso con el ticket *#" ++ pyStr ticket_id ++ "*. 🔧\n\n" ++
        "Un técnico revisará tu caso y se pondrá en contacto contigo a la brevedad."
      let notif : List Effect :=
        if truthyOpt ticket_id && truthyOpt env.tecnico_whatsapp then
          let msg_tecnico :=
            "🔔 *NUEVO TICKET #" ++ ticket_id.getD "" ++ "* (Post-Reboot)\n" ++
            String.mk (List.replicate 30 '=') ++ "\n" ++
            "👤 Cliente: " ++ pyStr session.nombre ++ "\n" ++
            "📋 Contrato: " ++ pyStr session.contrato ++ "\n" ++
            "📱 Teléfono: " ++ phone ++ "\n" ++
            "🔌 Serial ONT: " ++ pyOr session.serial_ont "N/D" ++ "\n" ++
            "🌐 IP: " ++ pyOr session.ip_cliente "N/D" ++ "\n" ++
            "⚠️ Problema: " ++ problema_texto ++ "\n" ++
            "🔄 Reboot remoto: Sí, sin éxito\n" ++
            "📊 Estado post-reboot: " ++ estado_post ++ " | Señal: " ++
            (if senal_val.isSome then decStr senal_val else "N/D") ++ " dBm"
          [.notifFallback (env.tecnico_whatsapp.getD "") msg_tecnico]
        else []
      (some session,
       [.rebootCmd serial,
        .waSend phone "⚙️ Reiniciando tu equipo remotamente... Por favor espera 2 minutos sin tocar el router.",
        .crearTicket session.id_cliente datos,
        .waSend phone msg_cliente] ++ notif)

/-- The per-technician notification state: the 24h window flag
(`ventana_tecnico:*`) and the pending queue (`pendiente_tecnico:*`).
Queue entries are `{mensaje, timestamp}`; `[]` models the absent key. -/
structure NotifState where
  ventana : Bool := false
  pendientes : List (String × Nat) := []
  deriving Repr, DecidableEq

/-- `guardar_ticket_pendiente` (main.py:683): appends the message with
the current timestamp (the 48h TTL is not modelled). -/
def guardar_ticket_pendiente (now : Nat) (mensaje : String) (st : NotifState) : NotifState :=
  { st with pendientes := st.pendientes ++ [(mensaje, now)] }

/-- Rendering of one queued entry on delivery (main.py:728-733); the
ISO-timestamp prettification is rendered through `toString`. -/
def fmtPendiente (p : String × Nat) : String :=
  "🕐 _" ++ toString p.2 ++ "_\n" ++ p.1

/-- `entregar_tickets_pendientes` (main.py:701): re-opens the 24h window,
then either reports an empty queue or delivers every pending entry in
stored order and deletes the queue key. -/
def entregar_tickets_pendientes (numero : String) (st : NotifState) :
    NotifState × List Effect :=
  let st := { st with ventana := true }
  match st.pendientes with
  | [] =>
    (st, [.waSendTecnico numero "✅ Estás activo. Te notificaré los próximos tickets en tiempo real."])
  | p :: rest =>
    ({ st with pendientes := [] },
     .waSendTecnico numero ("📬 Tienes *" ++ toString (p :: rest).length ++
       " ticket(s) pendiente(s)* que no pudieron entregarse antes:") ::
     (p :: rest).map (fun q => .waSendTecnico numero (fmtPendiente q)))

/-- `wa_send_message_tecnico_con_fallback` (main.py:742): immediate send
when the window flag is set, otherwise queue and do not attempt delivery
(the provider HTTP status is never consulted). -/
def wa_send_message_tecnico_con_fallback (now : Nat) (numero mensaje : String)
    (st : NotifState) : NotifState × List Effect :=
  if st.ventana then (st, [.waSendTecnico numero mensaje])
  else (guardar_ticket_pendiente now mensaje st, [])

/-- `TecnicoSession` (main.py:130).  Wall-clock timestamps are integer
seconds; `updated_at` is omitted as a write-only audit field. -/
structure TecnicoSession where
  phone : String
  nombre : String := "Técnico"
  fase : String := "IDLE"
  ticket_id : Option String := none
  cliente_phone : Option String := none
  cliente_nombre : Option String := none
  cliente_direccion : Option String := none
  problema : Option String := none
  ts_asignado : Option Nat := none
  ts_confirmado : Option Nat := none
  ts_en_camino : Option Nat := none
  ts_llegada : Option Nat := none
  ts_cierre : Option Nat := none
  falla : Option String := none
  solucion : Option String := none
  materiales : Option String := none
  fotos : List String := []
  deriving Repr, DecidableEq

/-- `calcular_ttr` (main.py:1759) over integer-second timestamps. -/
def calcular_ttr (ts_inicio ts_fin : Nat) : String :=
  let total := ts_fin - ts_inicio
  let horas := total / 3600
  let minutos := (total % 3600) / 60
  if horas > 0 then toString horas ++ "h " ++ toString minutos ++ "min"
  else toString minutos ++ "min"

/-- Rendering of an optional timestamp inside the closure report
(main.py:1779): absent stamps render as the sentinel; present stamps are
rendered through `toString` (the %d/%m/%Y pretty-printing of the wall
clock is not modelled). -/
def fmtTs : Option Nat → String
  | none => "N/D"
  | some t => toString t

/-- `construir_motivo_cierre` (main.py:1775): the full closing note. -/
def construir_motivo_cierre (sesion : TecnicoSession) (ahora : Nat) : String :=
  let ttr_total := match sesion.ts_asignado with
    | some t => calcular_ttr t ahora
    | none => "N/D"
  let ttr_sitio := match sesion.ts_llegada with
    | some t => calcular_ttr t ahora
    | none => "N/D"
  let fotos_texto :=
    if sesion.fotos.isEmpty then "  Sin evidencias"
    else joinWith "\n"
      (sesion.fotos.enum.map (fun p => "  " ++ toString (p.1 + 1) ++ ". " ++ p.2))
  "=== REPORTE DE CIERRE — ARIA Bot ===\n\n" ++
  "TIMELINE\n" ++
  "  Ticket asignado:    " ++ fmtTs sesion.ts_asignado ++ "\n" ++
  "  Técnico confirmó:   " ++ fmtTs sesion.ts_confirmado ++ "\n" ++
  "  En camino:          " ++ fmtTs sesion.ts_en_camino ++ "\n" ++
  "  Llegada domicilio:  " ++ fmtTs sesion.ts_llegada ++ "\n" ++
  "  Cierre:             " ++ fmtTs (some ahora) ++ "\n" ++
  "  TTR total:          " ++ ttr_total ++ "\n" ++
  "  Tiempo en sitio:    " ++ ttr_sitio ++ "\n\n" ++
  "DIAGNÓSTICO\n" ++
  "  Tipo de falla:      " ++ pyOr sesion.falla "N/D" ++ "\n" ++
  "  Solución aplicada:  " ++ pyOr sesion.solucion "N/D" ++ "\n" ++
  "  Materiales usados:  " ++ pyOr sesion.materiales "Ninguno" ++ "\n\n" ++
  "EVIDENCIAS\n" ++ fotos_texto ++ "\n\n" ++
  "Técnico: " ++ sesion.nombre ++ " (" ++ sesion.phone ++ ")\n" ++
  "Cerrado por: ARIA Bot (automático)"

/-- Inbound technician message content after the type dispatch of
main.py:1817-1836: extracted text (plain or button id) and whether a
downloadable image payload was present. -/
structure MsgTecnico where
  texto : Option String := none
  imagen : Bool := false
  deriving Repr, DecidableEq

/-- Collaborator responses for one technician-flow pass. -/
structure OracleTecnico where
  autorizado : Bool := true
  upload_link : Option String := none
  cerrar_exito : Bool := true
  now : Nat := 0
  deriving Repr, DecidableEq

/-- Result of one pass of `procesar_mensaje_tecnico`: technician store,
the linked customer phone's store, notification state, effects. -/
structure TecnicoResult where
  tstore : Option TecnicoSession
  cstore : Store
  notif : NotifState
  effects : List Effect
  deriving Repr, DecidableEq

/-- `procesar_mensaje_tecnico` (main.py:1812): the technician-side
dispatcher, from the admin/authorization/window gates through the
closure-interview phases.  Administrator commands only touch the
registry, which no verified property reads, so they are recorded as a
bare `adminCmd` effect. -/
def procesar_mensaje_tecnico (ot : OracleTecnico) (phone : String) (msg : MsgTecnico)
    (tstore : Option TecnicoSession) (cstore : Store) (notif : NotifState) : TecnicoResult :=
  if ¬ truthyOpt msg.texto && ¬ msg.imagen then
    { tstore := tstore, cstore := cstore, notif := notif, effects := [] }
  else if truthyOpt msg.texto && startsWithStr (msg.texto.getD "") "!" then
    { tstore := tstore, cstore := cstore, notif := notif,
      effects := [.adminCmd (msg.texto.getD "")] }
  else if ¬ ot.autorizado then
    { tstore := tstore, cstore := cstore, notif := { notif with ventana := true },
      effects := [.waSendTecnico phone "⛔ Número no autorizado.\nContacta al administrador para obtener acceso al sistema."] }
  else
    let notif := { notif with ventana := true }
    let ent := entregar_tickets_pendientes phone notif
    let notif := ent.1
    let flush := ent.2
    match tstore with
    | none =>
      { tstore := tstore, cstore := cstore, notif := notif,
        effects := flush ++ [.waSendTecnico phone "✅ Estás activo en el sistema. Te notificaré los próximos tickets en tiempo real.\n\nComandos disponibles:\n  !tickets — ver tickets pendientes (próximamente)"] }
    | some sesion =>
      if sesion.fase = "IDLE" then
        { tstore := tstore, cstore := cstore, notif := notif,
          effects := flush ++ [.waSendTecnico phone "✅ Estás activo en el sistema. Te notificaré los próximos tickets en tiempo real.\n\nComandos disponibles:\n  !tickets — ver tickets pendientes (próximamente)"] }
      else if sesion.fase = "ESPERANDO_CONFIRMACION" then
        let tid := pyStr sesion.ticket_id
        if truthyOpt msg.texto && startsWithStr (msg.texto.getD "") ("tec_si_" ++ tid) then
          let sesion := { sesion with
            fase := "EN_CAMINO",
            ts_confirmado := some ot.now,
            ts_en_camino := some ot.now }
          let notifCliente : List Effect :=
            if truthyOpt sesion.cliente_phone then
              [.waSend (sesion.cliente_phone.getD "")
                ("🚗 Buenas noticias, " ++ pyStr sesion.cliente_nombre ++ "!\n\n" ++
                 "Tu técnico *" ++ sesion.nombre ++ "* ya está en camino a tu domicilio.\n" ++
                 "Te avisaré cuando llegue. 🙏")]
            else []
          { tstore := some sesion, cstore := cstore, notif := notif,
            effects := flush ++
              [.waSendTecnico phone "✅ Confirmado. ¡Buen trabajo! Avísame cuando llegues al domicilio.",
               .waSendButtonsTecnico phone "Toca el botón cuando estés en el domicilio del cliente:"] ++
              notifCliente }
        else if truthyOpt msg.texto && startsWithStr (msg.texto.getD "") ("tec_no_" ++ tid) then
          let sesion := { sesion with fase := "IDLE" }
          { tstore := some sesion, cstore := cstore, notif := notif,
            effects := flush ++ [.waSendTecnico phone "Entendido. El ticket será reasignado."] }
        else
          { tstore := tstore, cstore := cstore, notif := notif, effects := flush }
      else if sesion.fase = "EN_CAMINO" then
        let tid := pyStr sesion.ticket_id
        if truthyOpt msg.texto && startsWithStr (msg.texto.getD "") ("tec_llegue_" ++ tid) then
          let sesion := { sesion with fase := "EN_DOMICILIO", ts_llegada := some ot.now }
          let notifCliente : List Effect :=
            if truthyOpt sesion.cliente_phone then
              [.waSend (sesion.cliente_phone.getD "")
                ("📍 ¡Tu técnico *" ++ sesion.nombre ++ "* acaba de llegar a tu domicilio!\n\n" ++
                 "En breve comenzará a revisar tu equipo. 🔧")]
            else []
          { tstore := some sesion, cstore := cstore, notif := notif,
            effects := flush ++
              [.waSendTecnico phone "📍 Check-in registrado.\n\nCuando termines el trabajo presiona el botón para iniciar el cierre del ticket.",
               .waSendButtonsTecnico phone ("¿Terminaste el trabajo en el ticket #" ++ tid ++ "?")] ++
              notifCliente }
        else
          { tstore := tstore, cstore := cstore, notif := notif, effects := flush }
      else if sesion.fase = "EN_DOMICILIO" then
        if truthyOpt msg.texto && startsWithStr (msg.texto.getD "") ("tec_listo_" ++ pyStr sesion.ticket_id) then
          let sesion := { sesion with fase := "CIERRE_P1" }
          { tstore := some sesion, cstore := cstore, notif := notif,
            effects := flush ++ [.waSendTecnico phone "¡Perfecto! Voy a registrar el cierre del ticket.\n\n*Pregunta 1 de 3:*\n¿Qué tipo de falla encontraste?\n_(ej: fibra cortada, ONT dañada, conector sucio, configuración)_"] }
        else
          { tstore := tstore, cstore := cstore, notif := notif, effects := flush }
      else if sesion.fase = "CIERRE_P1" then
        let sesion := { sesion with falla := msg.texto, fase := "CIERRE_P2" }
        { tstore := some sesion, cstore := cstore, notif := notif,
          effects := flush ++ [.waSendTecnico phone "Anotado ✅\n\n*Pregunta 2 de 3:*\n¿Qué solución aplicaste?\n_(ej: reemplazo de ONT, limpieza de conector, empalme de fibra)_"] }
      else if sesion.fase = "CIERRE_P2" then
        let sesion := { sesion with solucion := msg.texto, fase := "CIERRE_P3" }
        { tstore := some sesion, cstore := cstore, notif := notif,
          effects := flush ++ [.waSendTecnico phone "Anotado ✅\n\n*Pregunta 3 de 3:*\n¿Usaste materiales o repuestos?\n_(ej: 1x ONT Huawei EG8145X6, 2m fibra SC/APC — o escribe ‘ninguno’)_"] }
      else if sesion.fase = "CIERRE_P3" then
        let sesion := { sesion with materiales := msg.texto, fase := "CIERRE_FOTOS" }
        { tstore := some sesion, cstore := cstore, notif := notif,
          effects := flush ++ [.waSendTecnico phone "Anotado ✅\n\n*Último paso:*\nEnvía las fotos de evidencia del trabajo realizado.\nPuedes enviar *una o varias fotos*.\nCuando termines de enviar todas, escribe *fin fotos*."] }
      else if sesion.fase = "CIERRE_FOTOS" then
        if msg.imagen then
          match ot.upload_link with
          | some link =>
            let sesion := { sesion with fotos := sesion.fotos ++ [link] }
            { tstore := some sesion, cstore := cstore, notif := notif,
              effects := flush ++ [.waSendTecnico phone ("📷 Foto " ++ toString sesion.fotos.length ++ " recibida ✅\nEnvía más fotos o escribe *fin fotos* para cerrar.")] }
          | none =>
            { tstore := tstore, cstore := cstore, notif := notif,
              effects := flush ++ [.waSendTecnico phone "⚠️ No pude subir esa foto. Intenta enviarla de nuevo."] }
        else if truthyOpt msg.texto &&
            ["fin fotos", "fin", "listo", "ya", "eso es todo"].contains (toLowerStr (msg.texto.getD "")) then
          let sesion := { sesion with fase := "CERRANDO", ts_cierre := some ot.now }
          let motivo := construir_motivo_cierre sesion ot.now
          let cierreEff : Effect := .cerrarTicket (pyStr sesion.ticket_id) motivo
          if ot.cerrar_exito then
            let ttr := match sesion.ts_asignado, sesion.ts_cierre with
              | some a, some c => calcular_ttr a c
              | _, _ => "N/D"
            let resumen :=
              "✅ *Ticket #" ++ pyStr sesion.ticket_id ++ " cerrado exitosamente*\n\n" ++
              "📋 Falla: " ++ pyStr sesion.falla ++ "\n" ++
              "🔧 Solución: " ++ pyStr sesion.solucion ++ "\n" ++
              "🧰 Materiales: " ++ pyStr sesion.materiales ++ "\n" ++
              "📷 Fotos: " ++ toString sesion.fotos.length ++ "\n" ++
              "⏱ TTR total: " ++ ttr ++ "\n\n" ++
              "¡Gracias por tu trabajo! 💪"
            if truthyOpt sesion.cliente_phone then
              let cphone := sesion.cliente_phone.getD ""
              let g := get_session cphone cstore
              let cliente_session := { g.1 with fase := "CSAT", ticket_id := sesion.ticket_id }
              { tstore := none, cstore := some cliente_session, notif := notif,
                effects := flush ++ [cierreEff, .waSendTecnico phone resumen,
                  .waSend cphone ("✅ ¡Tu servicio ha sido restaurado, " ++ pyStr sesion.cliente_nombre ++ "!\n\n" ++
                    "El técnico *" ++ sesion.nombre ++ "* completó el trabajo en tu domicilio.\n" ++
                    "Por favor verifica que tu internet esté funcionando. 🌐")] }
            else
              { tstore := none, cstore := cstore, notif := notif,
                effects := flush ++ [cierreEff, .waSendTecnico phone resumen] }
          else
            { tstore := none, cstore := cstore, notif := notif,
              effects := flush ++ [cierreEff,
                .waSendTecnico phone ("⚠️ Hubo un problema al cerrar el ticket en el sistema.\nPor favor ciérralo manualmente en MikroWisp (#" ++ pyStr sesion.ticket_id ++ ").")] }
        else
          { tstore := tstore, cstore := cstore, notif := notif, effects := flush }
      else
        { tstore := tstore, cstore := cstore, notif := notif, effects := flush }

/-- Payload of the MikroWisp ticket-closed webhook (main.py:2177). -/
structure TicketClosedPayload where
  ticket_id : Option String := none
  cliente_telefono : Option String := none
  deriving Repr, DecidableEq

/-- `ticket_cerrado_por_tecnico` (main.py:2178).  When a customer phone
is present, the handler sets that session to CSAT and saves it; the very
next statement evaluates `call_glm(prompt, session, mensaje)` where
`mensaje` is not bound anywhere in the handler scope — a NameError at run
time — so the surrounding `except` returns the "error" response and the
WhatsApp send below the failing line is never reached.  The third
component is the `status` field of the JSON response. -/
def ticket_cerrado_por_tecnico (payload : TicketClosedPayload) (cstore : Store) :
    Store × List Effect × String :=
  if truthyOpt payload.cliente_telefono then
    let p := payload.cliente_telefono.getD ""
    let g := get_session p cstore
    let session := { g.1 with fase := "CSAT" }
    (some session, ([] : List Effect), "error")
  else (cstore, [], "ok")

/-- Classifier: the spawned background verification task. -/
def isSpawnEff : Effect → Bool
  | .spawnRebootTask _ _ => true
  | _ => false

/-- Classifier: the remote reboot command itself. -/
def isRebootCmdEff : Effect → Bool
  | .rebootCmd _ => true
  | _ => false

/-- Classifier: a ticket-creation call. -/
def isCrearTicketEff : Effect → Bool
  | .crearTicket _ _ => true
  | _ => false

/-- Classifier: a ticket-close call. -/
def isCerrarTicketEff : Effect → Bool
  | .cerrarTicket _ _ => true
  | _ => false

/-- Classifier: a fallback (window/queue) technician notification. -/
def isNotifFallbackEff : Effect → Bool
  | .notifFallback _ _ => true
  | _ => false

/-- Classifier: a plain customer send to a given number. -/
def isWaSendToEff (dest : String) : Effect → Bool
  | .waSend d _ => d = dest
  | _ => false

/-- Classifier: an immediate technician-channel text send. -/
def isWaSendTecnicoEff : Effect → Bool
  | .waSendTecnico _ _ => true
  | _ => false

/-- Number of effects of a trace satisfying a classifier. -/
def countEff (p : Effect → Bool) (l : List Effect) : Nat := (l.filter p).length

/-- Phase recorded in a store. -/
def faseOf : Store → Option String
  | none => none
  | some s => some s.fase

/-- Sequential processing of a list of inbound customer messages
(driver fuel 2 covers every re-entrant chain, cf. C8). -/
def procesar_lista (env : Env) (o : Oracle) (phone : String) :
    List String → Store → Store × List Effect
  | [], store => (store, [])
  | m :: rest, store =>
    let r := procesar_mensaje 2 env o phone m store
    let r2 := procesar_lista env o phone rest r.1
    (r2.1, r.2 ++ r2.2)

end IspAi

namespace IspAi

/-- `Dec.leB` agrees with the rational order of the denoted values. -/
theorem Dec.leB_iff (a b : Dec) : Dec.leB a b = true ↔ a.toRat ≤ b.toRat := by
  unfold Dec.leB Dec.toRat
  rw [decide_eq_true_eq, div_le_div_iff (by positivity) (by positivity)]
  constructor <;> intro h <;> exact_mod_cast h

/-- The degradation predicate in rational terms. -/
theorem senal_degradada_some_iff (v : Dec) :
    senal_degradada (some v) = true ↔
      ¬ ((-27 : Rat) ≤ v.toRat ∧ v.toRat ≤ (-8 : Rat)) := by
  have h1 := Dec.leB_iff v SENAL_MAX
  have h2 := Dec.leB_iff SENAL_MIN v
  have hmax : SENAL_MAX.toRat = (-8 : Rat) := by norm_num [SENAL_MAX, Dec.toRat]
  have hmin : SENAL_MIN.toRat = (-27 : Rat) := by norm_num [SENAL_MIN, Dec.toRat]
  rw [hmax] at h1
  rw [hmin] at h2
  constructor
  · intro hdeg hcon
    have hand : (Dec.leB v SENAL_MAX && Dec.leB SENAL_MIN v) = true := by
      rw [Bool.and_eq_true, h1, h2]
      exact ⟨hcon.2, hcon.1⟩
    simp [senal_degradada, hand] at hdeg
  · intro hcon
    have hand : (Dec.leB v SENAL_MAX && Dec.leB SENAL_MIN v) = false := by
      by_contra hne
      have := Bool.eq_true_of_ne_false hne
      rw [Bool.and_eq_true, h1, h2] at this
      exact hcon ⟨this.2, this.1⟩
    simp [senal_degradada, hand]

end IspAi

namespace IspAi

/-- Dispatch of `procesar_paso` on a stored DIAGNOSTICO_RED session. -/
theorem procesar_paso_diag (env : Env) (o : Oracle) (phone mensaje : String)
    (s : SessionState) (h : s.fase = "DIAGNOSTICO_RED") :
    procesar_paso env o phone mensaje (some s) = fase_diagnostico_red o phone s := by
  simp [procesar_paso, get_session, h]

/-- The spawn guard of the DIAGNOSTICO_RED handler, as a Bool identity. -/
theorem fase_diagnostico_red_spawn (o : Oracle) (phone : String) (s : SessionState) :
    (fase_diagnostico_red o phone s).effects.any isSpawnEff =
      (decide (diagOnuStatus o s = "online") &&
       senal_degradada (diagSenalRx o s) && truthyOpt s.serial_ont) := by
  unfold fase_diagnostico_red
  by_cases hA : diagOnuStatus o s = "offline" ∨ diagOnuStatus o s = "power fail" ∨
      diagOnuStatus o s = "los"
  · have hno : diagOnuStatus o s ≠ "online" := by
      rcases hA with h | h | h <;> rw [h] <;> decide
    rcases hA with h | h | h <;>
      simp [h, isSpawnEff, hno]
  · push_neg at hA
    obtain ⟨h1, h2, h3⟩ := hA
    by_cases hB : (decide (diagOnuStatus o s = "online") &&
        senal_degradada (diagSenalRx o s) && truthyOpt s.serial_ont) = true
    · simp [h1, h2, h3, hB, isSpawnEff]
    · rw [Bool.not_eq_true] at hB
      simp [h1, h2, h3, hB, isSpawnEff]

end IspAi

namespace IspAi

/-- Claim C1: for every customer session in phase DIAGNOSTICO_RED, the
degradation predicate over the extracted Rx value equals
`(x is not None) and not (-27 ≤ x ≤ -8)` (inclusive dBm window),
`degraded(None) = False`, and the background reboot-verification task is
spawned exactly when the equipment status is online, the predicate is
true and a serial is present — hence an absent signal reading never
triggers a reboot. -/
theorem C1_senal_degradada_guardia_reboot (env : Env) (o : Oracle)
    (phone mensaje : String) (s : SessionState)
    (h : s.fase = "DIAGNOSTICO_RED") :
    senal_degradada none = false ∧
    (∀ v : Dec, senal_degradada (some v) = true ↔
      ¬ ((-27 : Rat) ≤ v.toRat ∧ v.toRat ≤ (-8 : Rat))) ∧
    ((procesar_paso env o phone mensaje (some s)).effects.any isSpawnEff =
      (decide (diagOnuStatus o s = "online") &&
       senal_degradada (diagSenalRx o s) && truthyOpt s.serial_ont)) ∧
    (diagSenalRx o s = none →
      (procesar_paso env o phone mensaje (some s)).effects.any isSpawnEff = false) := by
  have hstep := procesar_paso_diag env o phone mensaje s h
  have hspawn := fase_diagnostico_red_spawn o phone s
  refine ⟨rfl, senal_degradada_some_iff, ?_, ?_⟩
  · rw [hstep, hspawn]
  · intro hnone
    rw [hstep, hspawn, hnone]
    simp [senal_degradada]

/-- Witness for C1 at a concrete DIAGNOSTICO_RED session: an online ONT
whose signal payload yields no reading spawns no reboot. -/
theorem C1_senal_degradada_guardia_reboot_witness :
    senal_degradada none = false ∧
    (∀ v : Dec, senal_degradada (some v) = true ↔
      ¬ ((-27 : Rat) ≤ v.toRat ∧ v.toRat ≤ (-8 : Rat))) ∧
    ((procesar_paso {} { ont_status := some { onu_status := some "Online" } }
        "p" "hola" (some { phone := "p", fase := "DIAGNOSTICO_RED", serial_ont := some "SN1" })).effects.any
        isSpawnEff =
      (decide (diagOnuStatus { ont_status := some { onu_status := some "Online" } }
          { phone := "p", fase := "DIAGNOSTICO_RED", serial_ont := some "SN1" } = "online") &&
       senal_degradada (diagSenalRx { ont_status := some { onu_status := some "Online" } }
          { phone := "p", fase := "DIAGNOSTICO_RED", serial_ont := some "SN1" }) &&
       truthyOpt (some "SN1"))) ∧
    (diagSenalRx { ont_status := some { onu_status := some "Online" } }
        { phone := "p", fase := "DIAGNOSTICO_RED", serial_ont := some "SN1" } = none →
      (procesar_paso {} { ont_status := some { onu_status := some "Online" } }
        "p" "hola" (some { phone := "p", fase := "DIAGNOSTICO_RED", serial_ont := some "SN1" })).effects.any
        isSpawnEff = false) :=
  C1_senal_degradada_guardia_reboot {} { ont_status := some { onu_status := some "Online" } }
    "p" "hola" { phone := "p", fase := "DIAGNOSTICO_RED", serial_ont := some "SN1" } rfl

end IspAi

namespace IspAi

/-- Claim C9 (implicit): when the raw signal field parses to the numeric
value exactly 0.0, `extraer_señal_rx` returns None; a zero reading is
therefore treated as absent — never degraded — and, in DIAGNOSTICO_RED,
never spawns the remote-reboot task, even though 0.0 lies outside the
[-27, -8] dBm window. -/
theorem C9_cero_tratado_como_ausente (d : SenalData) (m : List Char)
    (hm : searchNum (senalRaw d).data = some m) (hz : (parseNum m).num = 0) :
    extraer_senal_rx (some d) = none ∧
    senal_degradada (extraer_senal_rx (some d)) = false ∧
    (∀ env o phone mensaje (s : SessionState), s.fase = "DIAGNOSTICO_RED" →
      o.senal_data = some d →
      (procesar_paso env o phone mensaje (some s)).effects.any isSpawnEff = false) := by
  have hnone : extraer_senal_rx (some d) = none := by
    simp only [extraer_senal_rx]
    rw [hm]
    simp [Dec.isZero, hz]
  refine ⟨hnone, by rw [hnone]; rfl, ?_⟩
  intro env o phone mensaje s hfase hsd
  rw [procesar_paso_diag env o phone mensaje s hfase, fase_diagnostico_red_spawn]
  have hdiag : diagSenalRx o s = none := by
    unfold diagSenalRx
    rw [hsd]
    by_cases ht : truthyOpt s.serial_ont = true
    · simp [ht, hnone]
    · rw [Bool.not_eq_true] at ht
      simp [ht]
  rw [hdiag]
  simp [senal_degradada]

/-- Witness for C9: the payload "0.0" parses to zero and is dropped. -/
theorem C9_cero_tratado_como_ausente_witness :
    extraer_senal_rx (some { onu_signal_1490 := some "0.0" }) = none ∧
    senal_degradada (extraer_senal_rx (some { onu_signal_1490 := some "0.0" })) = false ∧
    (∀ env o phone mensaje (s : SessionState), s.fase = "DIAGNOSTICO_RED" →
      o.senal_data = some { onu_signal_1490 := some "0.0" } →
      (procesar_paso env o phone mensaje (some s)).effects.any isSpawnEff = false) :=
  C9_cero_tratado_como_ausente { onu_signal_1490 := some "0.0" } ['0', '.', '0']
    (by decide) (by decide)

end IspAi

namespace IspAi

/-- Claim C2, counterexample: with the reboot accepted, the post-wait
status offline and ticket creation returning no id, the task takes the
"otherwise" branch (phase ESPERANDO_TECNICO, ticket-creation call made)
yet sends no technician notification at all — the claim's unconditional
"notifies the technician through the window/queue fallback" fails. -/
theorem C2_reboot_verificar_counterexample :
    (let env : Env := { tecnico_whatsapp := some "111" }
     let o : Oracle := { reboot_ok := true, ont_post := none, ticket_result := none }
     let r := ejecutar_reboot_y_verificar env o "p" "SN1" { phone := "p", fase := "REBOOT_PENDIENTE" }
     o.reboot_ok = true ∧
     (postEstado o = "online" && senal_ok (postSenal o)) = false ∧
     faseOf r.1 = some "ESPERANDO_TECNICO" ∧
     r.2.any isCrearTicketEff = true ∧
     r.2.any isNotifFallbackEff = false) := by decide

/-- Claim C2 as amended: the background task behaves as claimed in the
reboot-rejected and verified-healthy cases; in the otherwise case it
still escalates (phase ESPERANDO_TECNICO, findings text, ticket-creation
call, save), but the fallback technician notification is sent only when
the ticket call returned a truthy id and a technician number is
configured. -/
theorem C2_reboot_verificar_amended (env : Env) (o : Oracle) (phone serial : String)
    (s : SessionState) :
    (o.reboot_ok = false →
      faseOf (ejecutar_reboot_y_verificar env o phone serial s).1 = some "TROUBLESHOOTING" ∧
      countEff isRebootCmdEff (ejecutar_reboot_y_verificar env o phone serial s).2 = 1 ∧
      (ejecutar_reboot_y_verificar env o phone serial s).2.any isCrearTicketEff = false ∧
      (ejecutar_reboot_y_verificar env o phone serial s).2.any (isWaSendToEff phone) = true) ∧
    (o.reboot_ok = true → (postEstado o = "online" && senal_ok (postSenal o)) = true →
      faseOf (ejecutar_reboot_y_verificar env o phone serial s).1 = some "CSAT" ∧
      (ejecutar_reboot_y_verificar env o phone serial s).2.any (isWaSendToEff phone) = true ∧
      (ejecutar_reboot_y_verificar env o phone serial s).2.any isCrearTicketEff = false) ∧
    (o.reboot_ok = true → (postEstado o = "online" && senal_ok (postSenal o)) = false →
      faseOf (ejecutar_reboot_y_verificar env o phone serial s).1 = some "ESPERANDO_TECNICO" ∧
      (ejecutar_reboot_y_verificar env o phone serial s).2.any isCrearTicketEff = true ∧
      (∃ s1, (ejecutar_reboot_y_verificar env o phone serial s).1 = some s1 ∧
        s1.datos_tecnicos ≠ none ∧ s1.ticket_id = o.ticket_result) ∧
      ((truthyOpt o.ticket_result && truthyOpt env.tecnico_whatsapp) = true →
        (ejecutar_reboot_y_verificar env o phone serial s).2.any isNotifFallbackEff = true) ∧
      ((truthyOpt o.ticket_result && truthyOpt env.tecnico_whatsapp) = false →
        (ejecutar_reboot_y_verificar env o phone serial s).2.any isNotifFallbackEff = false)) := by
  refine ⟨?_, ?_, ?_⟩
  · intro hr
    simp [ejecutar_reboot_y_verificar, hr, faseOf, countEff, isRebootCmdEff,
      isCrearTicketEff, isWaSendToEff, List.any, List.filter]
  · intro hr hok
    simp [ejecutar_reboot_y_verificar, hr, hok, faseOf, isWaSendToEff, isCrearTicketEff]
  · intro hr hok
    by_cases hn : (truthyOpt o.ticket_result && truthyOpt env.tecnico_whatsapp) = true
    · simp [ejecutar_reboot_y_verificar, hr, hok, hn, faseOf, isCrearTicketEff,
        isNotifFallbackEff]
    · rw [Bool.not_eq_true] at hn
      simp [ejecutar_reboot_y_verificar, hr, hok, hn, faseOf, isCrearTicketEff,
        isNotifFallbackEff]

end IspAi

namespace IspAi

/-- Witness for the amended C2 at concrete oracles: escalation with a
returned ticket id notifies the technician; a rejected reboot reverts to
TROUBLESHOOTING. -/
theorem C2_reboot_verificar_amended_witness :
    faseOf (ejecutar_reboot_y_verificar { tecnico_whatsapp := some "111" }
        { reboot_ok := true, ont_post := none, ticket_result := some "42" } "p" "SN1"
        { phone := "p", fase := "REBOOT_PENDIENTE" }).1 = some "ESPERANDO_TECNICO" ∧
    (ejecutar_reboot_y_verificar { tecnico_whatsapp := some "111" }
        { reboot_ok := true, ont_post := none, ticket_result := some "42" } "p" "SN1"
        { phone := "p", fase := "REBOOT_PENDIENTE" }).2.any isNotifFallbackEff = true ∧
    faseOf (ejecutar_reboot_y_verificar {} { reboot_ok := false } "p" "SN1"
        { phone := "p", fase := "REBOOT_PENDIENTE" }).1 = some "TROUBLESHOOTING" := by
  have h1 := C2_reboot_verificar_amended { tecnico_whatsapp := some "111" }
    { reboot_ok := true, ont_post := none, ticket_result := some "42" } "p" "SN1"
    { phone := "p", fase := "REBOOT_PENDIENTE" }
  have h2 := C2_reboot_verificar_amended {} { reboot_ok := false } "p" "SN1"
    { phone := "p", fase := "REBOOT_PENDIENTE" }
  exact ⟨(h1.2.2 rfl (by decide)).1,
         (h1.2.2 rfl (by decide)).2.2.2.1 (by decide),
         (h2.1 rfl).1⟩

end IspAi

namespace IspAi

/-- Claim C3: a fallback send to a technician whose window flag is unset
appends the message (with its timestamp) to the pending queue, delivers
nothing immediately and drops nothing; on the next inbound technician
write the whole queue is delivered in its original stored order and then
cleared, and a repeated flush delivers none of the old entries again. -/
theorem C3_ventana_cola_invariante (now : Nat) (numero mensaje : String)
    (st : NotifState) (h : st.ventana = false) :
    ((wa_send_message_tecnico_con_fallback now numero mensaje st).1.pendientes =
      st.pendientes ++ [(mensaje, now)]) ∧
    ((wa_send_message_tecnico_con_fallback now numero mensaje st).2 = []) ∧
    (∀ st2 : NotifState, st2.pendientes ≠ [] →
      (entregar_tickets_pendientes numero st2).2 =
        Effect.waSendTecnico numero ("📬 Tienes *" ++ toString st2.pendientes.length ++
          " ticket(s) pendiente(s)* que no pudieron entregarse antes:") ::
        st2.pendientes.map (fun q => Effect.waSendTecnico numero (fmtPendiente q)) ∧
      (entregar_tickets_pendientes numero st2).1.pendientes = []) ∧
    (∀ st2 : NotifState,
      (entregar_tickets_pendientes numero (entregar_tickets_pendientes numero st2).1).2 =
        [Effect.waSendTecnico numero "✅ Estás activo. Te notificaré los próximos tickets en tiempo real."]) := by
  refine ⟨?_, ?_, ?_, ?_⟩
  · simp [wa_send_message_tecnico_con_fallback, h, guardar_ticket_pendiente]
  · simp [wa_send_message_tecnico_con_fallback, h]
  · intro st2 hne
    obtain ⟨p, rest, hp⟩ : ∃ p rest, st2.pendientes = p :: rest := by
      cases hq : st2.pendientes with
      | nil => exact absurd hq hne
      | cons a l => exact ⟨a, l, rfl⟩
    constructor <;> simp [entregar_tickets_pendientes, hp]
  · intro st2
    cases hq : st2.pendientes <;> simp [entregar_tickets_pendientes, hq]

/-- Witness for C3 on a one-entry queue with the window closed. -/
theorem C3_ventana_cola_invariante_witness :
    ((wa_send_message_tecnico_con_fallback 7 "111" "aviso"
        { ventana := false, pendientes := [("m1", 1)] }).1.pendientes =
      [("m1", 1)] ++ [("aviso", 7)]) ∧
    ((wa_send_message_tecnico_con_fallback 7 "111" "aviso"
        { ventana := false, pendientes := [("m1", 1)] }).2 = []) ∧
    (∀ st2 : NotifState, st2.pendientes ≠ [] →
      (entregar_tickets_pendientes "111" st2).2 =
        Effect.waSendTecnico "111" ("📬 Tienes *" ++ toString st2.pendientes.length ++
          " ticket(s) pendiente(s)* que no pudieron entregarse antes:") ::
        st2.pendientes.map (fun q => Effect.waSendTecnico "111" (fmtPendiente q)) ∧
      (entregar_tickets_pendientes "111" st2).1.pendientes = []) ∧
    (∀ st2 : NotifState,
      (entregar_tickets_pendientes "111" (entregar_tickets_pendientes "111" st2).1).2 =
        [Effect.waSendTecnico "111" "✅ Estás activo. Te notificaré los próximos tickets en tiempo real."]) :=
  C3_ventana_cola_invariante 7 "111" "aviso" { ventana := false, pendientes := [("m1", 1)] } rfl

end IspAi

namespace IspAi

/-- `call_glm` never changes the phase of the session it threads. -/
theorem call_glm_fase (r : Option String) (s : SessionState) (m : String) :
    (call_glm r s m).2.fase = s.fase := by
  unfold call_glm
  cases r
  · rfl
  · by_cases hm : m = "" <;> simp [hm]

/-- Claim C4: a CSAT score "1".."5" closes the active ticket exactly once
(with a note containing score/5) and clears the session; processing the
same score again on the cleared store issues no ticket-close call and
leaves a fresh session in phase IDENTIFICACION. -/
theorem C4_csat_idempotencia (env : Env) (o o2 : Oracle) (phone mensaje : String)
    (s : SessionState) (t : String)
    (hfase : s.fase = "CSAT") (ht : s.ticket_id = some t) (htr : t ≠ "")
    (hm : ["1", "2", "3", "4", "5"].contains (trimStr mensaje) = true) :
    countEff isCerrarTicketEff (procesar_paso env o phone mensaje (some s)).effects = 1 ∧
    ((procesar_paso env o phone mensaje (some s)).effects.contains
      (Effect.cerrarTicket t ("Resuelto. CSAT: " ++ trimStr mensaje ++ "/5")) = true) ∧
    (procesar_paso env o phone mensaje (some s)).store = none ∧
    countEff isCerrarTicketEff (procesar_paso env o2 phone mensaje none).effects = 0 ∧
    faseOf (procesar_paso env o2 phone mensaje none).store = some "IDENTIFICACION" := by
  have hstep : procesar_paso env o phone mensaje (some s) = fase_csat o phone mensaje s := by
    simp [procesar_paso, get_session, hfase]
  have htruthy : truthyOpt s.ticket_id = true := by
    rw [ht]; simpa [truthyOpt] using htr
  have hsecond : procesar_paso env o2 phone mensaje none =
      { store := some (call_glm o2.glm_reply { phone := phone } mensaje).2,
        effects := [.waSend phone (call_glm o2.glm_reply { phone := phone } mensaje).1],
        recursa := false } := by
    simp [procesar_paso, get_session, fase_identificacion]
  have hm2 : trimStr mensaje = "1" ∨ trimStr mensaje = "2" ∨ trimStr mensaje = "3" ∨
      trimStr mensaje = "4" ∨ trimStr mensaje = "5" := by simpa using hm
  refine ⟨?_, ?_, ?_, ?_, ?_⟩
  · rw [hstep]
    rcases hm2 with h5 | h5 | h5 | h5 | h5 <;>
      simp [fase_csat, h5, htruthy, countEff, isCerrarTicketEff, List.filter]
  · rw [hstep]
    rcases hm2 with h5 | h5 | h5 | h5 | h5 <;>
      simp [fase_csat, h5, htruthy, ht, truthyOpt, htr]
  · rw [hstep]
    rcases hm2 with h5 | h5 | h5 | h5 | h5 <;>
      simp [fase_csat, h5]
  · rw [hsecond]
    simp [countEff, isCerrarTicketEff, List.filter]
  · rw [hsecond]
    simp [faseOf, call_glm_fase]

/-- Witness for C4: score "5" on a CSAT session holding ticket 42. -/
theorem C4_csat_idempotencia_witness :
    countEff isCerrarTicketEff (procesar_paso {} {} "p" "5"
      (some { phone := "p", fase := "CSAT", ticket_id := some "42" })).effects = 1 ∧
    ((procesar_paso {} {} "p" "5"
      (some { phone := "p", fase := "CSAT", ticket_id := some "42" })).effects.contains
      (Effect.cerrarTicket "42" ("Resuelto. CSAT: " ++ trimStr "5" ++ "/5")) = true) ∧
    (procesar_paso {} {} "p" "5"
      (some { phone := "p", fase := "CSAT", ticket_id := some "42" })).store = none ∧
    countEff isCerrarTicketEff (procesar_paso {} {} "p" "5" none).effects = 0 ∧
    faseOf (procesar_paso {} {} "p" "5" none).store = some "IDENTIFICACION" :=
  C4_csat_idempotencia {} {} {} "p" "5" { phone := "p", fase := "CSAT", ticket_id := some "42" }
    "42" rfl rfl (by decide) (by decide)

end IspAi

namespace IspAi

/-- Claim C5: on a successful contract lookup in IDENTIFICACION, unpaid
balance > 0 together with account state "suspendido" sends the session to
the terminal FINALIZADO_MORA phase, and no ticket is ever created for it
afterwards (the phase is a fall-through that never calls ticket
creation); every other successful lookup advances to DIAGNOSTICO_RED. -/
theorem C5_mora_o_diagnostico (env : Env) (o : Oracle) (phone mensaje ct : String)
    (s : SessionState) (c : Cliente)
    (hfase : s.fase = "IDENTIFICACION") (hh : s.historial ≠ [])
    (hc : extraer_contrato mensaje = some ct)
    (hcl : o.cliente = some c) :
    ((Dec.ltB ⟨0, 0⟩ o.facturas_total && (c.estado == some "suspendido")) = true →
      faseOf (procesar_paso env o phone mensaje (some s)).store = some "FINALIZADO_MORA" ∧
      (procesar_paso env o phone mensaje (some s)).effects.any isCrearTicketEff = false) ∧
    ((Dec.ltB ⟨0, 0⟩ o.facturas_total && (c.estado == some "suspendido")) = false →
      faseOf (procesar_paso env o phone mensaje (some s)).store = some "DIAGNOSTICO_RED" ∧
      (procesar_paso env o phone mensaje (some s)).effects.any isCrearTicketEff = false) ∧
    (∀ (env2 : Env) (o2 : Oracle) (s2 : SessionState) (msgs : List String),
      s2.fase = "FINALIZADO_MORA" →
      (procesar_lista env2 o2 phone msgs (some s2)).2.any isCrearTicketEff = false) := by
  have hh2 : s.historial.isEmpty = false := by
    cases hl : s.historial with
    | nil => exact absurd hl hh
    | cons a l => rfl
  have hstep : procesar_paso env o phone mensaje (some s) =
      fase_identificacion o phone mensaje s (some s) := by
    simp [procesar_paso, get_session, hfase]
  refine ⟨?_, ?_, ?_⟩
  · intro hcond
    rw [hstep]
    simp [fase_identificacion, hh2, hc, hcl, hcond, faseOf, isCrearTicketEff]
  · intro hcond
    rw [hstep]
    simp [fase_identificacion, hh2, hc, hcl, hcond, faseOf, isCrearTicketEff]
  · intro env2 o2 s2 msgs h2
    have hstep2 : ∀ m, procesar_mensaje 2 env2 o2 phone m (some s2) =
        (some s2, [Effect.waSend phone "Tu caso está siendo atendido. Si tienes alguna consulta adicional, escríbenos. 🙏"]) := by
      intro m
      have hp : procesar_paso env2 o2 phone m (some s2) = fase_default phone (some s2) := by
        simp [procesar_paso, get_session, h2]
      simp [procesar_mensaje, hp, fase_default]
    induction msgs with
    | nil => simp [procesar_lista]
    | cons m rest ih =>
      simp [procesar_lista, hstep2, isCrearTicketEff, ih]

/-- Witness for C5: contract "778899", suspended account, balance 50000 →
FINALIZADO_MORA with no ticket call; an active account instead moves to
DIAGNOSTICO_RED; and in FINALIZADO_MORA later messages create no ticket. -/
theorem C5_mora_o_diagnostico_witness :
    (faseOf (procesar_paso {}
        { cliente := some { id := some "9", estado := some "suspendido" },
          facturas_total := ⟨50000, 0⟩ } "p" "778899"
        (some { phone := "p", fase := "IDENTIFICACION",
                historial := [("user", "hola")] })).store = some "FINALIZADO_MORA" ∧
      (procesar_paso {}
        { cliente := some { id := some "9", estado := some "suspendido" },
          facturas_total := ⟨50000, 0⟩ } "p" "778899"
        (some { phone := "p", fase := "IDENTIFICACION",
                historial := [("user", "hola")] })).effects.any isCrearTicketEff = false) ∧
    (faseOf (procesar_paso {}
        { cliente := some { id := some "9", estado := some "activo" },
          facturas_total := ⟨0, 0⟩ } "p" "778899"
        (some { phone := "p", fase := "IDENTIFICACION",
                historial := [("user", "hola")] })).store = some "DIAGNOSTICO_RED") ∧
    ((procesar_lista {} {} "p" ["hola", "ayuda"]
        (some { phone := "p", fase := "FINALIZADO_MORA" })).2.any isCrearTicketEff = false) := by
  have h1 := C5_mora_o_diagnostico {}
    { cliente := some { id := some "9", estado := some "suspendido" },
      facturas_total := ⟨50000, 0⟩ } "p" "778899" "778899"
    { phone := "p", fase := "IDENTIFICACION", historial := [("user", "hola")] }
    { id := some "9", estado := some "suspendido" } rfl (by decide) (by decide) rfl
  have h2 := C5_mora_o_diagnostico {}
    { cliente := some { id := some "9", estado := some "activo" },
      facturas_total := ⟨0, 0⟩ } "p" "778899" "778899"
    { phone := "p", fase := "IDENTIFICACION", historial := [("user", "hola")] }
    { id := some "9", estado := some "activo" } rfl (by decide) (by decide) rfl
  exact ⟨h1.1 (by decide), (h2.2.1 (by decide)).1,
         h1.2.2 {} {} { phone := "p", fase := "FINALIZADO_MORA" } ["hola", "ayuda"] rfl⟩

end IspAi

namespace IspAi

/-- A prefix of `l` is also a prefix of `l ++ m`. -/
theorem leadsWith_append (n l m : List Char) (h : leadsWith n l = true) :
    leadsWith n (l ++ m) = true := by
  induction n generalizing l with
  | nil => rfl
  | cons a as ih =>
    cases l with
    | nil => exact absurd h (by simp [leadsWith])
    | cons b bs =>
      simp only [List.cons_append, leadsWith, Bool.and_eq_true] at h ⊢
      exact ⟨h.1, ih bs h.2⟩

/-- A substring occurrence survives appending on the right. -/
theorem listContains_append_left (n l m : List Char) (h : listContains n l = true) :
    listContains n (l ++ m) = true := by
  induction l with
  | nil =>
    have hn : n = [] := by
      cases n with
      | nil => rfl
      | cons a as => simp [listContains, List.isEmpty] at h
    subst hn
    cases m <;> simp [listContains, leadsWith, List.isEmpty]
  | cons c cs ih =>
    rw [List.cons_append]
    rw [listContains] at h ⊢
    rw [Bool.or_eq_true] at h ⊢
    rcases h with h1 | h1
    · refine Or.inl ?_
      rw [← List.cons_append]
      exact leadsWith_append n (c :: cs) m h1
    · exact Or.inr (ih h1)

/-- String form of `listContains_append_left`. -/
theorem substrB_append_left (n l m : String) (h : substrB n l = true) :
    substrB n (l ++ m) = true := by
  unfold substrB at h ⊢
  have hd : (l ++ m).data = l.data ++ m.data := String.data_append l m
  rw [hd]
  exact listContains_append_left _ _ _ h

end IspAi

namespace IspAi

/-- Claim C6, counterexample: in ESCALADO with ticket creation returning
no id, the acknowledgment the customer receives renders the ticket id as
the literal placeholder "None" (the reply reads "… ticket *#None*. …"),
not as absent. -/
theorem C6_ticket_none_counterexample :
    (let r := procesar_paso {} { ticket_result := none } "p" "ok"
      (some { phone := "p", fase := "ESCALADO" })
     faseOf r.store = some "ESPERANDO_TECNICO" ∧
     r.effects.any (fun e => match e with
       | .waSend d t => d == "p" && substrB "*#None*" t
       | _ => false) = true) := by decide

/-- Claim C6 as amended: in ESCALADO, when ticket creation returns no
id, the customer still receives the acknowledgment (the reply is not
blocked, and no technician notification is attempted for the absent id),
and the session still advances to ESPERANDO_TECNICO — but the ticket id
is rendered in the reply as the Python placeholder text "None" rather
than as absent. -/
theorem C6_ticket_none_amended (env : Env) (o : Oracle) (phone mensaje : String)
    (s : SessionState) (hfase : s.fase = "ESCALADO") (ht : o.ticket_result = none) :
    (procesar_paso env o phone mensaje (some s)).effects.any isCrearTicketEff = true ∧
    (procesar_paso env o phone mensaje (some s)).effects.any (isWaSendToEff phone) = true ∧
    faseOf (procesar_paso env o phone mensaje (some s)).store = some "ESPERANDO_TECNICO" ∧
    (procesar_paso env o phone mensaje (some s)).effects.any isNotifFallbackEff = false ∧
    (procesar_paso env o phone mensaje (some s)).effects.any (fun e => match e with
      | .waSend d t => d == phone && substrB "*#None*" t
      | _ => false) = true := by
  have hstep : procesar_paso env o phone mensaje (some s) =
      fase_escalado env o phone mensaje s := by
    simp [procesar_paso, get_session, hfase]
  rw [hstep]
  by_cases hd : (if s.destino_escalado = "" then "TECNICO" else s.destino_escalado) = "TECNICO" <;>
    simp [fase_escalado, ht, hd, faseOf, isCrearTicketEff, isWaSendToEff,
      isNotifFallbackEff, truthyOpt] <;>
    decide

end IspAi

namespace IspAi

/-- Witness for the amended C6 at a concrete ESCALADO session. -/
theorem C6_ticket_none_amended_witness :
    (procesar_paso {} { ticket_result := none } "p" "ok"
      (some { phone := "p", fase := "ESCALADO" })).effects.any isCrearTicketEff = true ∧
    (procesar_paso {} { ticket_result := none } "p" "ok"
      (some { phone := "p", fase := "ESCALADO" })).effects.any (isWaSendToEff "p") = true ∧
    faseOf (procesar_paso {} { ticket_result := none } "p" "ok"
      (some { phone := "p", fase := "ESCALADO" })).store = some "ESPERANDO_TECNICO" ∧
    (procesar_paso {} { ticket_result := none } "p" "ok"
      (some { phone := "p", fase := "ESCALADO" })).effects.any isNotifFallbackEff = false ∧
    (procesar_paso {} { ticket_result := none } "p" "ok"
      (some { phone := "p", fase := "ESCALADO" })).effects.any (fun e => match e with
      | .waSend d t => d == "p" && substrB "*#None*" t
      | _ => false) = true :=
  C6_ticket_none_amended {} { ticket_result := none } "p" "ok"
    { phone := "p", fase := "ESCALADO" } rfl rfl

end IspAi

namespace IspAi

/-- A substring occurrence survives prepending on the left. -/
theorem listContains_append_right (n l m : List Char) (h : listContains n m = true) :
    listContains n (l ++ m) = true := by
  induction l with
  | nil => simpa using h
  | cons c cs ih =>
    rw [List.cons_append, listContains, Bool.or_eq_true]
    exact Or.inr ih

/-- String form of `listContains_append_right`. -/
theorem substrB_append_right (n l m : String) (h : substrB n m = true) :
    substrB n (l ++ m) = true := by
  unfold substrB at h ⊢
  rw [String.data_append]
  exact listContains_append_right _ _ _ h

/-- The pending-queue flush emits only immediate technician sends. -/
theorem entregar_solo_waSendTecnico (numero : String) (st : NotifState) (e : Effect) :
    e ∈ (entregar_tickets_pendientes numero st).2 → isWaSendTecnicoEff e = true := by
  unfold entregar_tickets_pendientes
  cases h : st.pendientes with
  | nil =>
    intro hm
    simp at hm
    simp [hm, isWaSendTecnicoEff]
  | cons p rest =>
    intro hm
    simp at hm
    rcases hm with hm | hm | ⟨a, b, hmem, hq⟩
    · simp [hm, isWaSendTecnicoEff]
    · simp [hm, isWaSendTecnicoEff]
    · simp [← hq, isWaSendTecnicoEff]

/-- The flush makes no ticket-close call. -/
theorem entregar_sin_cerrar (numero : String) (st : NotifState) :
    countEff isCerrarTicketEff (entregar_tickets_pendientes numero st).2 = 0 := by
  rw [countEff, List.length_eq_zero, List.filter_eq_nil_iff]
  intro e he
  have := entregar_solo_waSendTecnico numero st e he
  cases e <;> simp_all [isWaSendTecnicoEff, isCerrarTicketEff]

end IspAi

namespace IspAi

/-- Claim C7: in CIERRE_FOTOS a termination phrase (any photo count,
zero included) builds the closure report — zero photos rendering the
"Sin evidencias" line — attempts the ticket-close call exactly once, and
clears the technician session regardless of the outcome; on failure the
technician is told to close the ticket manually and nothing retries. -/
theorem C7_cierre_fotos_mejor_esfuerzo (ot : OracleTecnico) (phone texto : String)
    (sesion : TecnicoSession) (cstore : Store) (notif : NotifState)
    (hfase : sesion.fase = "CIERRE_FOTOS") (htxt : texto ≠ "")
    (hterm : toLowerStr texto = "fin fotos" ∨ toLowerStr texto = "fin" ∨
      toLowerStr texto = "listo" ∨ toLowerStr texto = "ya" ∨ toLowerStr texto = "eso es todo")
    (hauth : ot.autorizado = true) (hbang : startsWithStr texto "!" = false) :
    countEff isCerrarTicketEff
      (procesar_mensaje_tecnico ot phone { texto := some texto } (some sesion) cstore notif).effects = 1 ∧
    (procesar_mensaje_tecnico ot phone { texto := some texto } (some sesion) cstore notif).tstore = none ∧
    (Effect.cerrarTicket (pyStr sesion.ticket_id)
        (construir_motivo_cierre { sesion with fase := "CERRANDO", ts_cierre := some ot.now } ot.now) ∈
      (procesar_mensaje_tecnico ot phone { texto := some texto } (some sesion) cstore notif).effects) ∧
    (sesion.fotos = [] →
      substrB "Sin evidencias"
        (construir_motivo_cierre { sesion with fase := "CERRANDO", ts_cierre := some ot.now } ot.now) = true) ∧
    (ot.cerrar_exito = false →
      (procesar_mensaje_tecnico ot phone { texto := some texto } (some sesion) cstore notif).effects.any
        (fun e => match e with
          | .waSendTecnico _ t => substrB "ciérralo manualmente" t
          | _ => false) = true) := by
  have hflush : (List.filter isCerrarTicketEff
      (entregar_tickets_pendientes phone { notif with ventana := true }).2).length = 0 :=
    entregar_sin_cerrar phone { notif with ventana := true }
  have htx : truthyOpt (some texto) = true := by simp [truthyOpt, htxt]
  refine ⟨?_, ?_, ?_, ?_, ?_⟩
  · by_cases he : ot.cerrar_exito = true
    · by_cases hcp : truthyOpt sesion.cliente_phone = true
      · rcases hterm with h5 | h5 | h5 | h5 | h5 <;>
          simp [procesar_mensaje_tecnico, htx, hbang, hauth, hfase, h5, he, hcp,
            countEff, List.filter_append, isCerrarTicketEff, hflush]
      · rw [Bool.not_eq_true] at hcp
        rcases hterm with h5 | h5 | h5 | h5 | h5 <;>
          simp [procesar_mensaje_tecnico, htx, hbang, hauth, hfase, h5, he, hcp,
            countEff, List.filter_append, isCerrarTicketEff, hflush]
    · rw [Bool.not_eq_true] at he
      rcases hterm with h5 | h5 | h5 | h5 | h5 <;>
        simp [procesar_mensaje_tecnico, htx, hbang, hauth, hfase, h5, he,
          countEff, List.filter_append, isCerrarTicketEff, hflush]
  · by_cases he : ot.cerrar_exito = true
    · by_cases hcp : truthyOpt sesion.cliente_phone = true
      · rcases hterm with h5 | h5 | h5 | h5 | h5 <;>
          simp [procesar_mensaje_tecnico, htx, hbang, hauth, hfase, h5, he, hcp]
      · rw [Bool.not_eq_true] at hcp
        rcases hterm with h5 | h5 | h5 | h5 | h5 <;>
          simp [procesar_mensaje_tecnico, htx, hbang, hauth, hfase, h5, he, hcp]
    · rw [Bool.not_eq_true] at he
      rcases hterm with h5 | h5 | h5 | h5 | h5 <;>
        simp [procesar_mensaje_tecnico, htx, hbang, hauth, hfase, h5, he]
  · by_cases he : ot.cerrar_exito = true
    · by_cases hcp : truthyOpt sesion.cliente_phone = true
      · rcases hterm with h5 | h5 | h5 | h5 | h5 <;>
          simp [procesar_mensaje_tecnico, htx, hbang, hauth, hfase, h5, he, hcp]
      · rw [Bool.not_eq_true] at hcp
        rcases hterm with h5 | h5 | h5 | h5 | h5 <;>
          simp [procesar_mensaje_tecnico, htx, hbang, hauth, hfase, h5, he, hcp]
    · rw [Bool.not_eq_true] at he
      rcases hterm with h5 | h5 | h5 | h5 | h5 <;>
        simp [procesar_mensaje_tecnico, htx, hbang, hauth, hfase, h5, he]
  · intro hf
    simp only [construir_motivo_cierre, hf, List.isEmpty_nil, if_pos]
    apply substrB_append_left
    apply substrB_append_left
    apply substrB_append_left
    apply substrB_append_left
    apply substrB_append_left
    apply substrB_append_left
    apply substrB_append_left
    apply substrB_append_right
    decide
  · intro he
    by_cases hcp : truthyOpt sesion.cliente_phone = true
    · rcases hterm with h5 | h5 | h5 | h5 | h5 <;>
        (simp [procesar_mensaje_tecnico, htx, hbang, hauth, hfase, h5, he, hcp]
         exact Or.inr (substrB_append_left _ _ _ (substrB_append_left _ _ _ (by decide))))
    · rw [Bool.not_eq_true] at hcp
      rcases hterm with h5 | h5 | h5 | h5 | h5 <;>
        (simp [procesar_mensaje_tecnico, htx, hbang, hauth, hfase, h5, he, hcp]
         exact Or.inr (substrB_append_left _ _ _ (substrB_append_left _ _ _ (by decide))))

end IspAi

namespace IspAi

/-- Witness for C7: "fin fotos" with zero photos and a failing close. -/
theorem C7_cierre_fotos_mejor_esfuerzo_witness :
    countEff isCerrarTicketEff
      (procesar_mensaje_tecnico { cerrar_exito := false } "t" { texto := some "fin fotos" }
        (some { phone := "t", fase := "CIERRE_FOTOS", ticket_id := some "42" }) none {}).effects = 1 ∧
    (procesar_mensaje_tecnico { cerrar_exito := false } "t" { texto := some "fin fotos" }
        (some { phone := "t", fase := "CIERRE_FOTOS", ticket_id := some "42" }) none {}).tstore = none ∧
    (Effect.cerrarTicket (pyStr (some "42"))
        (construir_motivo_cierre
          { phone := "t", fase := "CERRANDO", ticket_id := some "42", ts_cierre := some 0 } 0) ∈
      (procesar_mensaje_tecnico { cerrar_exito := false } "t" { texto := some "fin fotos" }
        (some { phone := "t", fase := "CIERRE_FOTOS", ticket_id := some "42" }) none {}).effects) ∧
    (({ phone := "t", fase := "CIERRE_FOTOS", ticket_id := some "42" } : TecnicoSession).fotos = [] →
      substrB "Sin evidencias"
        (construir_motivo_cierre
          { phone := "t", fase := "CERRANDO", ticket_id := some "42", ts_cierre := some 0 } 0) = true) ∧
    (({ cerrar_exito := false } : OracleTecnico).cerrar_exito = false →
      (procesar_mensaje_tecnico { cerrar_exito := false } "t" { texto := some "fin fotos" }
        (some { phone := "t", fase := "CIERRE_FOTOS", ticket_id := some "42" }) none {}).effects.any
        (fun e => match e with
          | .waSendTecnico _ t => substrB "ciérralo manualmente" t
          | _ => false) = true) :=
  C7_cierre_fotos_mejor_esfuerzo { cerrar_exito := false } "t" "fin fotos"
    { phone := "t", fase := "CIERRE_FOTOS", ticket_id := some "42" } none {}
    rfl (by decide) (Or.inl (by decide)) rfl (by decide)

end IspAi

namespace IspAi

/-- The IDENTIFICACION handler never re-invokes the processor. -/
theorem fase_identificacion_recursa (o : Oracle) (phone mensaje : String)
    (s : SessionState) (store : Store) :
    (fase_identificacion o phone mensaje s store).recursa = false := by
  unfold fase_identificacion
  dsimp only
  split
  · rfl
  · split
    · rfl
    · split
      · rfl
      · rfl

/-- The DIAGNOSTICO_RED handler never re-invokes the processor. -/
theorem fase_diagnostico_red_recursa (o : Oracle) (phone : String) (s : SessionState) :
    (fase_diagnostico_red o phone s).recursa = false := by
  unfold fase_diagnostico_red
  dsimp only
  split
  · rfl
  · split
    · rfl
    · rfl

/-- When TROUBLESHOOTING_MANUAL re-invokes, it has moved to ESCALADO. -/
theorem fase_troubleshooting_manual_escalado (o : Oracle) (phone mensaje : String)
    (s : SessionState) :
    (fase_troubleshooting_manual o phone mensaje s).recursa = false ∨
    faseOf (fase_troubleshooting_manual o phone mensaje s).store = some "ESCALADO" := by
  unfold fase_troubleshooting_manual
  dsimp only
  repeat' split
  all_goals simp [faseOf]

/-- When TROUBLESHOOTING re-invokes, it has moved to ESCALADO. -/
theorem fase_troubleshooting_escalado (o : Oracle) (phone mensaje : String)
    (s : SessionState) (store : Store) :
    (fase_troubleshooting o phone mensaje s store).recursa = false ∨
    faseOf (fase_troubleshooting o phone mensaje s store).store = some "ESCALADO" := by
  unfold fase_troubleshooting
  dsimp only
  repeat' split
  all_goals simp [faseOf]

/-- When ESPERANDO_PREGUNTAS_NOINET re-invokes, it has moved to ESCALADO. -/
theorem fase_preguntas_noinet_escalado (phone mensaje : String) (s : SessionState) :
    (fase_preguntas_noinet phone mensaje s).recursa = false ∨
    faseOf (fase_preguntas_noinet phone mensaje s).store = some "ESCALADO" := by
  unfold fase_preguntas_noinet
  dsimp only
  repeat' split
  all_goals simp [faseOf]

/-- The ESCALADO handler never re-invokes the processor. -/
theorem fase_escalado_recursa (env : Env) (o : Oracle) (phone mensaje : String)
    (s : SessionState) :
    (fase_escalado env o phone mensaje s).recursa = false := rfl

/-- The CSAT handler never re-invokes the processor. -/
theorem fase_csat_recursa (o : Oracle) (phone mensaje : String) (s : SessionState) :
    (fase_csat o phone mensaje s).recursa = false := by
  unfold fase_csat
  dsimp only
  split
  · rfl
  · rfl

end IspAi

namespace IspAi

/-- Any pass of the dispatcher that re-invokes has stored an ESCALADO
session. -/
theorem procesar_paso_escalado (env : Env) (o : Oracle) (phone mensaje : String)
    (store : Store) :
    (procesar_paso env o phone mensaje store).recursa = false ∨
    faseOf (procesar_paso env o phone mensaje store).store = some "ESCALADO" := by
  unfold procesar_paso
  dsimp only
  split_ifs
  · exact Or.inl (fase_identificacion_recursa _ _ _ _ _)
  · exact Or.inl (fase_diagnostico_red_recursa _ _ _)
  · exact fase_troubleshooting_manual_escalado _ _ _ _
  · exact fase_troubleshooting_escalado _ _ _ _ _
  · exact fase_preguntas_noinet_escalado _ _ _
  · exact Or.inl rfl
  · exact Or.inl (fase_csat_recursa _ _ _ _)
  · exact Or.inl rfl
  · exact Or.inl rfl

/-- From a stored ESCALADO session the next pass does not re-invoke. -/
theorem procesar_paso_escalado_stop (env : Env) (o : Oracle) (phone mensaje : String)
    (s2 : SessionState) (h : s2.fase = "ESCALADO") :
    (procesar_paso env o phone mensaje (some s2)).recursa = false := by
  have hd : procesar_paso env o phone mensaje (some s2) =
      fase_escalado env o phone mensaje s2 := by
    simp [procesar_paso, get_session, h]
  rw [hd]
  rfl

/-- From a stored ESCALADO session the driver takes exactly one step,
whatever fuel remains. -/
theorem procesar_mensaje_escalado_one (env : Env) (o : Oracle) (phone mensaje : String)
    (s2 : SessionState) (h : s2.fase = "ESCALADO") (fuel : Nat) :
    procesar_mensaje (fuel + 1) env o phone mensaje (some s2) =
    procesar_mensaje 1 env o phone mensaje (some s2) := by
  have hrec := procesar_paso_escalado_stop env o phone mensaje s2 h
  simp [procesar_mensaje, hrec]

/-- Claim C8: every re-entrant self-invocation chain terminates — a pass
that re-invokes always stores phase ESCALADO first, the ESCALADO handler
itself never re-invokes, and hence the driver is insensitive to any fuel
beyond 2: one inbound message causes at most one re-entrant pass. -/
theorem C8_recursion_acotada (env : Env) (o : Oracle) (phone mensaje : String)
    (store : Store) :
    ((procesar_paso env o phone mensaje store).recursa = true →
      faseOf (procesar_paso env o phone mensaje store).store = some "ESCALADO") ∧
    (∀ s2 : SessionState, s2.fase = "ESCALADO" →
      (procesar_paso env o phone mensaje (some s2)).recursa = false) ∧
    (∀ fuel : Nat, procesar_mensaje (fuel + 2) env o phone mensaje store =
      procesar_mensaje 2 env o phone mensaje store) := by
  refine ⟨?_, ?_, ?_⟩
  · intro hr
    rcases procesar_paso_escalado env o phone mensaje store with h | h
    · rw [hr] at h
      cases h
    · exact h
  · intro s2 h2
    exact procesar_paso_escalado_stop env o phone mensaje s2 h2
  · intro fuel
    cases hrec : (procesar_paso env o phone mensaje store).recursa
    · simp [procesar_mensaje, hrec]
    · have hesc : faseOf (procesar_paso env o phone mensaje store).store = some "ESCALADO" := by
        rcases procesar_paso_escalado env o phone mensaje store with h | h
        · rw [hrec] at h
          cases h
        · exact h
      obtain ⟨s2, hs2, hfase⟩ : ∃ s2, (procesar_paso env o phone mensaje store).store = some s2 ∧
          s2.fase = "ESCALADO" := by
        cases hst : (procesar_paso env o phone mensaje store).store with
        | none =>
          rw [hst] at hesc
          cases hesc
        | some s3 =>
          rw [hst] at hesc
          exact ⟨s3, rfl, by simpa [faseOf] using hesc⟩
      have hone := procesar_mensaje_escalado_one env o phone mensaje s2 hfase fuel
      have hstop := procesar_paso_escalado_stop env o phone mensaje s2 hfase
      simp [procesar_mensaje, hrec, hs2, hone, hstop]

/-- Witness for C8: a "sí" reply in TROUBLESHOOTING_MANUAL re-enters once
(into ESCALADO) and the driver result is identical for fuel 5 and 2. -/
theorem C8_recursion_acotada_witness :
    procesar_mensaje 5 {} {} "p" "sí"
      (some { phone := "p", fase := "TROUBLESHOOTING_MANUAL" }) =
    procesar_mensaje 2 {} {} "p" "sí"
      (some { phone := "p", fase := "TROUBLESHOOTING_MANUAL" }) :=
  (C8_recursion_acotada {} {} "p" "sí"
    (some { phone := "p", fase := "TROUBLESHOOTING_MANUAL" })).2.2 3

end IspAi

namespace IspAi

/-- Claim C10 (implicit): a ticket-closed webhook request carrying a
customer phone sets that session to CSAT and saves it, but the
reply-generation step references the unbound name `mensaje` and raises a
NameError, so no WhatsApp message is sent from this path and the endpoint
answers with the error status while the CSAT phase change persists. -/
theorem C10_webhook_cierre_error (payload : TicketClosedPayload) (cstore : Store)
    (h : truthyOpt payload.cliente_telefono = true) :
    (ticket_cerrado_por_tecnico payload cstore).2.2 = "error" ∧
    (ticket_cerrado_por_tecnico payload cstore).2.1 = [] ∧
    faseOf (ticket_cerrado_por_tecnico payload cstore).1 = some "CSAT" := by
  unfold ticket_cerrado_por_tecnico
  simp [h, faseOf]

/-- Witness for C10 at a concrete payload with a customer phone. -/
theorem C10_webhook_cierre_error_witness :
    (ticket_cerrado_por_tecnico { cliente_telefono := some "p" } none).2.2 = "error" ∧
    (ticket_cerrado_por_tecnico { cliente_telefono := some "p" } none).2.1 = [] ∧
    faseOf (ticket_cerrado_por_tecnico { cliente_telefono := some "p" } none).1 = some "CSAT" :=
  C10_webhook_cierre_error { cliente_telefono := some "p" } none (by decide)

end IspAi
